import Mathlib

/-!
Verification of the remote-sync engine of `ai-toolbox`.

This file gives a shallow embedding of the synchronization engine found in
`src/tauri/src/coding/` (SSH backend in `ssh/sync.rs`, `ssh/session.rs`,
`ssh/skills_sync.rs`; WSL backend in `wsl/sync.rs`) and proves properties of
that embedding.

Modelling conventions:
- Pure Rust functions become Lean functions over `String`/`List`/`Option`.
- Effectful functions (remote command execution, SFTP uploads, WSL process
  invocations) are embedded as functions of an explicit environment `Env`
  that supplies the outcome of every external call, paired with the list of
  external effects issued, in order.  `Result<T, String>` becomes
  `Except String T`.
- Shell-level consequences of the issued command strings (the state of the
  remote filesystem between commands) are modelled separately by a small
  step semantics on a functional filesystem; those definitions carry doc
  comments saying what they model.
-/

/-! ## String helpers -/

/-- Boolean list-prefix test, used to compare paths and messages. -/
def listPrefix : List Char → List Char → Bool
  | [], _ => true
  | _ :: _, [] => false
  | a :: as, b :: bs => a == b && listPrefix as bs

/-- Boolean string-prefix test on the underlying character lists. -/
def pfx (a b : String) : Bool := listPrefix a.data b.data

/-- Does the character list contain `needle` as a contiguous segment? -/
def listContainsSeg (needle : List Char) : List Char → Bool
  | [] => listPrefix needle []
  | c :: rest => listPrefix needle (c :: rest) || listContainsSeg needle rest

/-- Substring test: does `s` contain `t` as a contiguous substring? -/
def strContainsSub (s t : String) : Bool := listContainsSeg t.data s.data

/-- The ASCII apostrophe character (code 39), used inside error messages. -/
def apos : String := String.singleton (Char.ofNat 39)

/-- Fuel-indexed core of `rustReplace` (structural recursion so that the
kernel can evaluate it; the fuel is the input length). -/
def replaceListAux (pat rep : List Char) : Nat → List Char → List Char
  | _, [] => []
  | 0, l => l
  | fuel + 1, c :: rest =>
    if listPrefix pat (c :: rest) then
      rep ++ replaceListAux pat rep fuel (rest.drop (pat.length - 1))
    else c :: replaceListAux pat rep fuel rest

/-- Rust `str::replace`: replace every (leftmost, non-overlapping)
occurrence of `pat` by `rep`.  The engine never calls it with an empty
pattern; that degenerate case returns the string unchanged. -/
def rustReplace (s pat rep : String) : String :=
  if pat.data.isEmpty then s
  else String.mk (replaceListAux pat.data rep.data s.data.length s.data)

/-- Rust `char::is_whitespace` (the Unicode White_Space property). -/
def isRustWhitespace (c : Char) : Bool :=
  c.toNat == 0x09 || c.toNat == 0x0A || c.toNat == 0x0B || c.toNat == 0x0C
    || c.toNat == 0x0D || c.toNat == 0x20 || c.toNat == 0x85 || c.toNat == 0xA0
    || c.toNat == 0x1680 || (0x2000 ≤ c.toNat && c.toNat ≤ 0x200A)
    || c.toNat == 0x2028 || c.toNat == 0x2029 || c.toNat == 0x202F
    || c.toNat == 0x205F || c.toNat == 0x3000

/-- Rust `str::trim`: strip whitespace from both ends. -/
def rustTrim (s : String) : String :=
  String.mk (((s.data.dropWhile isRustWhitespace).reverse.dropWhile
    isRustWhitespace).reverse)

/-- Drop the first `n` characters (Rust slicing / `replacen` helper). -/
def strDropChars (s : String) (n : Nat) : String := String.mk (s.data.drop n)

/-- Does the string contain the character?  (Rust `str::contains(char)`.) -/
def strContainsChar (s : String) (c : Char) : Bool := s.data.contains c

/-- Rust `str::trim_end_matches('/')`. -/
def trimEndSlashes (s : String) : String :=
  String.mk ((s.data.reverse.dropWhile (fun c => c == '/')).reverse)

/-- Split at the last slash: `(dir, last component)`, or `(".", s)` when no
slash occurs (Rust `rfind('/')` as used by the WSL pattern sync). -/
def splitAtLastSlash (s : String) : String × String :=
  let after := s.data.reverse.takeWhile (fun c => c != '/')
  if after.length == s.data.length then (".", s)
  else (String.mk (s.data.take (s.data.length - after.length - 1)),
        String.mk after.reverse)

/-! ## Local path expansion (`coding/path_expand.rs`, `wsl/sync.rs::expand_env_vars`)

The Rust code reads the process environment (`dirs::home_dir()`,
`std::env::var`); we model those reads as a record of optional values. -/

/-- The local environment visible to path expansion. -/
structure LocalEnv where
  homeDir : Option String
  userprofile : Option String
  appdata : Option String
  localappdata : Option String
  homeEnv : Option String

/-- The variable table of `expand_local_path` / `expand_env_vars`:
`USERPROFILE`, `APPDATA`, `LOCALAPPDATA`, and `HOME` falling back to
`USERPROFILE` (`std::env::var("HOME").or_else(|_| std::env::var("USERPROFILE"))`). -/
def envVarList (L : LocalEnv) : List (String × Option String) :=
  [("USERPROFILE", L.userprofile), ("APPDATA", L.appdata),
   ("LOCALAPPDATA", L.localappdata),
   ("HOME", match L.homeEnv with | some h => some h | none => L.userprofile)]

/-- One step of the variable-substitution loop: replace `%VAR%` and `$VAR`
when the variable has a value. -/
def applyVar (acc : String) (v : String × Option String) : String :=
  match v.2 with
  | some val => rustReplace (rustReplace acc ("%" ++ v.1 ++ "%") val) ("$" ++ v.1) val
  | none => acc

/-- Embeds `coding/path_expand.rs::expand_local_path`.  When the path starts with
`~/` (or is exactly `~`), `replacen("~", home, 1)` rewrites the leading `~`
(the first occurrence is necessarily at position 0), then the variable table
is applied.  The Rust function always returns `Ok`. -/
def expandLocalPure (L : LocalEnv) (path : String) : String :=
  let r0 := if pfx "~/" path || path == "~" then
      match L.homeDir with
      | some home => home ++ strDropChars path 1
      | none => path
    else path
  (envVarList L).foldl applyVar r0

/-- Result wrapper matching the Rust signature (always `Ok`). -/
def expand_local_path (L : LocalEnv) (path : String) : Except String String :=
  Except.ok (expandLocalPure L path)

/-- Embeds `wsl/sync.rs::expand_env_vars`: the same variable table, no `~` handling.
The Rust function always returns `Ok`. -/
def expandEnvVarsPure (L : LocalEnv) (path : String) : String :=
  (envVarList L).foldl applyVar path

/-- Result wrapper matching the Rust signature (always `Ok`). -/
def expand_env_vars (L : LocalEnv) (path : String) : Except String String :=
  Except.ok (expandEnvVarsPure L path)

/-! ## Effects and environments -/

/-- Result of one `wsl.exe` invocation (`std::process::Output`, with stdout
and stderr already decoded by `decode_wsl_output`, which we model as the
identity on the decoded text). -/
structure WslOut where
  success : Bool
  code : Int
  stdout : String
  stderr : String
  deriving Repr, DecidableEq

/-- One externally visible effect issued by the engine, in program order. -/
inductive Effect where
  /-- call `SshSession::exec_command cmd` -/
  | exec (cmd : String)
  /-- call `SshSession::exec_command_with_stdin cmd data` -/
  | execStdin (cmd : String) (data : String)
  /-- an SFTP upload of a single file -/
  | sftpUploadFile (localPath remotePath : String)
  /-- call `SshSession::upload_dir` (recursive SFTP upload) -/
  | sftpUploadDir (localPath remotePath : String)
  /-- call `SshSession::create_sftp_session` -/
  | sftpCreate
  /-- run `wsl -d distro --exec bash -c cmd` -/
  | wslExec (distro cmd : String)
  /-- run `wsl -d distro --exec bash -c cmd` with data piped to stdin -/
  | wslExecStdin (distro cmd data : String)
  /-- call `SshSession::disconnect` -/
  | sshDisconnect
  /-- an SSH connection attempt (`do_connect`) -/
  | sshConnect (host : String) (port : Nat) (username : String)
  deriving Repr, DecidableEq

/-- Modelled from the spec: `RemoteConnection` (§3) — "identity, host, port,
username, auth method {password; key given as path or inline content,
optional passphrase}".  The concrete `SSHConnection` struct lives in
`ssh/types.rs`, which is not part of the provided sources; the fields below
are the ones the provided code reads (`id`, `host`, `port`, `username`,
`auth_method`, `password`, `passphrase`, `private_key_path`,
`private_key_content`). -/
structure SSHConnection where
  id : String
  host : String
  port : Nat
  username : String
  auth_method : String
  password : String
  passphrase : String
  private_key_path : String
  private_key_content : String
  deriving Repr, DecidableEq

/-- The environment supplying the outcome of every external call.  Each
field corresponds to one kind of call the Rust code makes; the engine is
deterministic given this oracle. -/
structure Env where
  L : LocalEnv
  /-- result of `Path::new(p).exists()` -/
  localExists : String → Bool
  /-- outcome of `SshSession::exec_command` -/
  exec : String → Except String String
  /-- outcome of `SshSession::exec_command_with_stdin` -/
  execStdin : String → String → Except String Unit
  /-- outcome of `SshSession::upload_file` -/
  upFile : String → String → Except String Unit
  /-- outcome of `SshSession::upload_dir` -/
  upDir : String → String → Except String Unit
  /-- outcome of `SshSession::create_sftp_session` -/
  sftpCreate : Except String Unit
  /-- outcome of `upload_file_via_sftp` -/
  sftpUp : String → String → Except String Unit
  /-- outcome of `glob::glob(pattern)` filtered to `Ok` entries -/
  glob : String → Except String (List String)
  /-- value of `SystemTime::now()` in milliseconds since the epoch -/
  nowMillis : Nat
  /-- outcome of one `wsl -d distro --exec bash -c cmd` invocation -/
  wsl : String → String → Except String WslOut
  /-- outcome of the stdin-feeding WSL invocation of `write_wsl_file`
  (spawn error, or the final exit status) -/
  wslStdin : String → String → String → Except String Bool
  /-- result of `client::Handle::is_closed()` for a given handle -/
  handleClosed : Nat → Bool
  /-- outcome of `SshSession::do_connect` (a fresh handle on success) -/
  connectRes : SSHConnection → Except String Nat

/-! ## SSH backend: `ssh/sync.rs` -/

namespace Ssh

/-- The dangerous-remote-path test of `ssh/sync.rs` (lines 86–89 and
357–359): trimmed path in {empty, `/`, tilde, `$HOME`}. -/
def dangerous_remote (path : String) : Bool :=
  let trimmed := rustTrim path
  trimmed == "" || trimmed == "/" || trimmed == "~" || trimmed == "$HOME"

/-- Command string `mkdir -p "$(dirname "T")"` built by the sync operations. -/
def mkdirDirnameCmd (remote_target : String) : String :=
  "mkdir -p \"$(dirname \"" ++ remote_target ++ "\")\""

/-- Command string `rm -rf "T" && mv "TMP" "T"` built by `sync_directory`. -/
def swapCmd (remote_target tmp_remote_target : String) : String :=
  "rm -rf \"" ++ remote_target ++ "\" && mv \"" ++ tmp_remote_target
    ++ "\" \"" ++ remote_target ++ "\""

/-- Command string `rm -rf "P"` (cleanup of the temporary path, and
`remove_remote_path`). -/
def rmRfCmd (p : String) : String := "rm -rf \"" ++ p ++ "\""

/-- Embeds `ssh/sync.rs::sync_single_file`. -/
def sync_single_file (E : Env) (local_path remote_path : String) :
    Except String (List String) × List Effect :=
  match expand_local_path E.L local_path with
  | .error e => (.error e, [])
  | .ok expanded =>
    if ¬ E.localExists expanded then (.ok [], [])
    else
      let remote_target := rustReplace remote_path "~" "$HOME"
      let mkdir_cmd := mkdirDirnameCmd remote_target
      match E.exec mkdir_cmd with
      | .error e => (.error e, [.exec mkdir_cmd])
      | .ok _ =>
        match E.upFile expanded remote_path with
        | .error e => (.error e, [.exec mkdir_cmd, .sftpUploadFile expanded remote_path])
        | .ok _ =>
          (.ok [local_path ++ " -> " ++ remote_path],
           [.exec mkdir_cmd, .sftpUploadFile expanded remote_path])

/-- Embeds `ssh/sync.rs::sync_directory` (temporary upload path suffixed
with the current epoch milliseconds, then a remove-old + rename swap; on
swap failure the temporary path is removed and a swap-specific error is
returned). -/
def sync_directory (E : Env) (local_path remote_path : String) :
    Except String (List String) × List Effect :=
  match expand_local_path E.L local_path with
  | .error e => (.error e, [])
  | .ok expanded =>
    if ¬ E.localExists expanded then (.ok [], [])
    else
      let remote_target := rustReplace remote_path "~" "$HOME"
      if dangerous_remote remote_path then
        (.error ("拒绝同步到危险路径: " ++ apos ++ remote_path ++ apos), [])
      else
        let tmp_suffix := E.nowMillis
        let tmp_remote_path := remote_path ++ ".tmp_" ++ toString tmp_suffix
        let tmp_remote_target := remote_target ++ ".tmp_" ++ toString tmp_suffix
        let mkdir_cmd := mkdirDirnameCmd remote_target
        match E.exec mkdir_cmd with
        | .error e => (.error e, [.exec mkdir_cmd])
        | .ok _ =>
          match E.upDir expanded tmp_remote_path with
          | .error e => (.error e, [.exec mkdir_cmd, .sftpUploadDir expanded tmp_remote_path])
          | .ok _ =>
            let swap_cmd := swapCmd remote_target tmp_remote_target
            match E.exec swap_cmd with
            | .error e =>
              (.error ("目录替换失败: " ++ e),
               [.exec mkdir_cmd, .sftpUploadDir expanded tmp_remote_path,
                .exec swap_cmd, .exec (rmRfCmd tmp_remote_target)])
            | .ok _ =>
              (.ok [local_path ++ " -> " ++ remote_path],
               [.exec mkdir_cmd, .sftpUploadDir expanded tmp_remote_path, .exec swap_cmd])

/-- Last path component, modelling `Path::file_name()` (with
`unwrap_or_default`) for the POSIX-style paths the engine handles. -/
def fileNameOf (p : String) : String :=
  String.mk ((p.data.reverse.takeWhile (fun c => c != '/')).reverse)

/-- Embeds `ssh/sync.rs::sync_pattern_files` (glob expansion, one shared
SFTP session, per-file failures logged and skipped). -/
def sync_pattern_files (E : Env) (local_pattern remote_dir : String) :
    Except String (List String) × List Effect :=
  match expand_local_path E.L local_pattern with
  | .error e => (.error e, [])
  | .ok expanded =>
    match E.glob expanded with
    | .error e => (.error ("无效的 glob 模式: " ++ e), [])
    | .ok matchList =>
      if matchList.isEmpty then (.ok [], [])
      else
        let remote_target := rustReplace remote_dir "~" "$HOME"
        let mkdir_cmd := "mkdir -p \"" ++ remote_target ++ "\""
        match E.exec mkdir_cmd with
        | .error e => (.error e, [.exec mkdir_cmd])
        | .ok _ =>
          match E.sftpCreate with
          | .error e => (.error e, [.exec mkdir_cmd, .sftpCreate])
          | .ok _ =>
            let step := fun (acc : List String × List Effect) (file_str : String) =>
              let file_name := fileNameOf file_str
              let remote_dest :=
                (trimEndSlashes remote_dir) ++ "/" ++ file_name
              match E.sftpUp file_str remote_dest with
              | .ok _ =>
                (acc.1 ++ [file_str ++ " -> " ++ remote_dest],
                 acc.2 ++ [.sftpUploadFile file_str remote_dest])
              | .error _ => (acc.1, acc.2 ++ [.sftpUploadFile file_str remote_dest])
            let r := matchList.foldl step ([], [])
            (.ok r.1, [.exec mkdir_cmd, .sftpCreate] ++ r.2)

/-- Modelled from the spec: `FileMapping` (§3) — "id, module tag, name,
local path, remote path, `is_directory`, `is_pattern`, `enabled`".  The
concrete `SSHFileMapping` struct lives in `ssh/types.rs`, which is not part
of the provided sources; the fields below are the ones the provided code
reads. -/
structure SSHFileMapping where
  name : String
  module : String
  local_path : String
  remote_path : String
  is_directory : Bool
  is_pattern : Bool
  enabled : Bool

/-- Modelled from the spec: `SyncResult` (§3) — "`synced_files[]`,
`skipped_files[]`, `errors[]`, success flag".  The concrete struct lives in
`ssh/types.rs` / `wsl/types.rs`, not part of the provided sources. -/
structure SyncResult where
  success : Bool
  synced_files : List String
  skipped_files : List String
  errors : List String
  deriving Repr, DecidableEq

/-- Embeds `ssh/sync.rs::sync_file_mapping` (dispatch by mapping kind). -/
def sync_file_mapping (E : Env) (m : SSHFileMapping) :
    Except String (List String) × List Effect :=
  if m.is_directory then sync_directory E m.local_path m.remote_path
  else if m.is_pattern then sync_pattern_files E m.local_path m.remote_path
  else sync_single_file E m.local_path m.remote_path

/-- The accumulation loop of `ssh/sync.rs::sync_mappings` (lines 211–223):
returns `(synced_files, skipped_files, errors, effects)` in input order. -/
def runMappings (E : Env) :
    List SSHFileMapping → List String × List String × List String × List Effect
  | [] => ([], [], [], [])
  | m :: rest =>
    let r := sync_file_mapping E m
    let acc := runMappings E rest
    match r.1 with
    | .ok files =>
      if files.isEmpty then (acc.1, m.name :: acc.2.1, acc.2.2.1, r.2 ++ acc.2.2.2)
      else (files ++ acc.1, acc.2.1, acc.2.2.1, r.2 ++ acc.2.2.2)
    | .error e => (acc.1, acc.2.1, (m.name ++ ": " ++ e) :: acc.2.2.1, r.2 ++ acc.2.2.2)

/-- Embeds `ssh/sync.rs::sync_mappings` (filter by `enabled`, then by the
optional module tag, run in order, aggregate). -/
def sync_mappings (E : Env) (mappings : List SSHFileMapping)
    (module_filter : Option String) : SyncResult × List Effect :=
  let filtered := (mappings.filter (fun m => m.enabled)).filter
      (fun m => module_filter.isNone || some m.module == module_filter)
  let r := runMappings E filtered
  ({ success := r.2.2.1.isEmpty, synced_files := r.1,
     skipped_files := r.2.1, errors := r.2.2.1 }, r.2.2.2)

/-- Rust `char::is_ascii_graphic`: printable ASCII except space. -/
def isAsciiGraphicR (c : Char) : Bool := 0x21 ≤ c.toNat && c.toNat ≤ 0x7E

/-- Rust `char::is_ascii_whitespace`: space, tab, newline, form feed,
carriage return. -/
def isAsciiWhitespaceR (c : Char) : Bool :=
  c.toNat == 0x20 || c.toNat == 0x09 || c.toNat == 0x0A
    || c.toNat == 0x0C || c.toNat == 0x0D

/-- The count of characters among the first 256 of `content` that are
neither ASCII-graphic nor ASCII-whitespace (`ssh/sync.rs` lines 252–256). -/
def nonPrintableCount256 (content : String) : Nat :=
  ((content.data.take 256).filter
    (fun c => ¬ isAsciiGraphicR c && ¬ isAsciiWhitespaceR c)).length

/-- Sample length `content.chars().take(256).count().max(1)`. -/
def sampleLen256 (content : String) : Nat := max (content.data.take 256).length 1

/-- Error message for non-UTF-8 content (`ssh/sync.rs` lines 244–248). -/
def encodingErrMsg (file_path : String) : String :=
  "文件 " ++ file_path ++ " 编码不是 UTF-8（可能是 GBK/GB2312），请手动转换后重试。\n"
    ++ "修复方法: iconv -f GBK -t UTF-8 \"" ++ file_path ++ "\" -o \"" ++ file_path
    ++ ".tmp\" && mv \"" ++ file_path ++ ".tmp\" \"" ++ file_path ++ "\""

/-- Error message for binary-looking content (`ssh/sync.rs` lines 259–262). -/
def binaryErrMsg (file_path : String) : String :=
  "文件 " ++ file_path ++ " 内容疑似二进制或已损坏，请检查文件内容是否正确"

/-- Embeds `ssh/sync.rs::check_file_encoding`: reject content containing
U+FFFD, then reject when at least 10% of the first 256 characters are
neither ASCII-graphic nor ASCII-whitespace. -/
def check_file_encoding (content file_path : String) : Except String Unit :=
  if strContainsChar content (Char.ofNat 0xFFFD) then .error (encodingErrMsg file_path)
  else if sampleLen256 content ≤ nonPrintableCount256 content * 10 then
    .error (binaryErrMsg file_path)
  else .ok ()

/-- Command string built by `read_remote_file_raw`: cat the file if it is a
regular file, else echo an empty string. -/
def catOrEmptyCmd (remote_path : String) : String :=
  "if [ -f \"" ++ remote_path ++ "\" ]; then cat \"" ++ remote_path
    ++ "\"; else echo ''; fi"

/-- Embeds `ssh/sync.rs::read_remote_file_raw`. -/
def read_remote_file_raw (E : Env) (path : String) :
    Except String String × List Effect :=
  let remote_path := rustReplace path "~" "$HOME"
  let command := catOrEmptyCmd remote_path
  (E.exec command, [.exec command])

/-- Error message of `read_remote_file` when the automatic conversion fails
(`ssh/sync.rs` lines 310–314), naming the manual transcode command. -/
def iconvFailMsg (path : String) : String :=
  "文件 " ++ path ++ " 编码不是 UTF-8，自动转换失败。请手动转换后重试。\n"
    ++ "修复方法: iconv -f GBK -t UTF-8 \"" ++ path ++ "\" -o \"" ++ path
    ++ ".tmp\" && mv \"" ++ path ++ ".tmp\" \"" ++ path ++ "\""

/-- The remote conversion command issued by `read_remote_file`. -/
def iconvCmd (remote_path : String) : String :=
  "iconv -f GBK -t UTF-8 \"" ++ remote_path ++ "\" 2>/dev/null"

/-- Embeds `ssh/sync.rs::read_remote_file`: raw read, encoding check, at
most one remote GBK→UTF-8 conversion attempt, re-validation. -/
def read_remote_file (E : Env) (path : String) :
    Except String String × List Effect :=
  match read_remote_file_raw E path with
  | (.error e, tr) => (.error e, tr)
  | (.ok content, tr) =>
    if (check_file_encoding content path).isOk then (.ok content, tr)
    else
      let remote_path := rustReplace path "~" "$HOME"
      let convert_cmd := iconvCmd remote_path
      match E.exec convert_cmd with
      | .ok converted =>
        if (check_file_encoding converted path).isOk then
          (.ok converted, tr ++ [.exec convert_cmd])
        else (.error (iconvFailMsg path), tr ++ [.exec convert_cmd])
      | .error _ => (.error (iconvFailMsg path), tr ++ [.exec convert_cmd])

/-- Command string built by `write_remote_file`. -/
def writeCmd (remote_path : String) : String :=
  "mkdir -p \"$(dirname \"" ++ remote_path ++ "\")\" && cat > \"" ++ remote_path ++ "\""

/-- Embeds `ssh/sync.rs::write_remote_file`. -/
def write_remote_file (E : Env) (path content : String) :
    Except String Unit × List Effect :=
  let remote_path := rustReplace path "~" "$HOME"
  let command := writeCmd remote_path
  (E.execStdin command content, [.execStdin command content])

/-- Embeds `ssh/sync.rs::remove_remote_path` (refuses dangerous paths,
otherwise issues `rm -rf`). -/
def remove_remote_path (E : Env) (path : String) :
    Except String Unit × List Effect :=
  if dangerous_remote path then
    (.error ("拒绝删除危险路径: " ++ apos ++ path ++ apos), [])
  else
    let remote_path := rustReplace path "~" "$HOME"
    let command := rmRfCmd remote_path
    match E.exec command with
    | .error e => (.error e, [.exec command])
    | .ok _ => (.ok (), [.exec command])

end Ssh

/-! ## SSH backend: `ssh/session.rs` (session state machine) -/

namespace Ssh

/-- Embeds `ssh/session.rs::SessionStatus`. -/
inductive SessionStatus where
  | Disconnected
  | Connecting
  | Connected
  | Failed (reason : String)
  deriving Repr, DecidableEq

/-- The mutable fields of `SshSession` relevant to `connect` /
`disconnect` / `is_alive` (the sync lock is not modelled here). -/
structure SshSessionSt where
  conn : Option SSHConnection
  handle : Option Nat
  status : SessionStatus
  deriving Repr, DecidableEq

/-- Embeds `SshSession::new`. -/
def SshSessionSt.new : SshSessionSt :=
  { conn := none, handle := none, status := .Disconnected }

/-- Embeds `SshSession::is_alive` (a handle exists and is not closed). -/
def is_alive (E : Env) (s : SshSessionSt) : Bool :=
  match s.handle with
  | some h => ¬ E.handleClosed h
  | none => false

/-- Embeds `SshSession::disconnect`: best-effort close of the handle (a
`sshDisconnect` effect when a handle exists), then clear the connection and
reset the status. -/
def disconnect (s : SshSessionSt) : SshSessionSt × List Effect :=
  ({ conn := none, handle := none, status := .Disconnected },
   match s.handle with
   | some _ => [Effect.sshDisconnect]
   | none => [])

/-- Embeds `SshSession::connect` (lines 145–174): if the stored connection
has the same `id` as the requested one and the handle is alive, mark
`Connected` and return success without touching the handle; otherwise
disconnect, adopt the new connection, and attempt `do_connect`. -/
def connect (E : Env) (s : SshSessionSt) (conn : SSHConnection) :
    SshSessionSt × Except String Unit × List Effect :=
  if (s.conn.map (fun c => c.id) == some conn.id) && is_alive E s then
    ({ s with status := .Connected }, .ok (), [])
  else
    let (s1, tr1) := disconnect s
    let s2 := { s1 with status := .Connecting, conn := some conn }
    match E.connectRes conn with
    | .ok h =>
      ({ s2 with handle := some h, status := .Connected }, .ok (),
       tr1 ++ [.sshConnect conn.host conn.port conn.username])
    | .error e =>
      ({ s2 with status := .Failed ("SSH 连接失败: " ++ e) },
       .error ("SSH 连接失败: " ++ e),
       tr1 ++ [.sshConnect conn.host conn.port conn.username])

end Ssh

/-! ## SSH backend: `ssh/skills_sync.rs` (per-skill reconciliation core) -/

namespace Ssh

/-- Remote central skills directory (`skills_sync.rs` line 22). -/
def SSH_CENTRAL_DIR : String := "~/.ai-toolbox/skills"

/-- Modelled from the spec: `ManagedSkill` (§3) — "name, central storage
path, content hash, set of tool keys it is enabled for".  The concrete
struct lives in the skills store module, not part of the provided sources;
the fields below are the ones `sync_skills_to_ssh` reads. -/
structure ManagedSkill where
  name : String
  content_hash : Option String
  enabled_tools : List String

/-- Outcome of the per-skill body of the `sync_skills_to_ssh` loop. -/
structure SkillStepOutcome where
  /-- the `continue` taken when the local source is absent -/
  skippedSourceMissing : Bool
  /-- hashes matched, transfer skipped -/
  skippedUpToDate : Bool
  /-- `synced_count` was incremented for this skill -/
  synced : Bool
  /-- errors pushed to `all_errors` for this skill -/
  errors : List String
  deriving Repr, DecidableEq

/-- The remote marker hash as computed by `sync_skills_to_ssh` lines
145–149: raw read, `unwrap_or_default`, `trim`. -/
def remoteHashOf (E : Env) (hash_file : String) : String :=
  rustTrim (match (read_remote_file_raw E hash_file).1 with
   | .ok s => s
   | .error _ => "")

/-- Embeds the per-skill body of `ssh/skills_sync.rs::sync_skills_to_ssh`
(lines 131–174): skip when the resolved source path does not exist; read
the remote marker hash; if it differs from the skill's local content hash,
run `sync_directory` and then `write_remote_file` for the marker (a marker
write failure is only logged — `log::warn!` — and the skill still counts
as synced); on `sync_directory` failure push one error and continue.  The
subsequent symlink reconciliation (lines 176–196) touches only the tool
link paths, not the marker file, and is outside this core. -/
def skill_sync_core (E : Env) (skill : ManagedSkill) (source_str : String)
    (sourceExists : Bool) : SkillStepOutcome × List Effect :=
  if ¬ sourceExists then
    ({ skippedSourceMissing := true, skippedUpToDate := false,
       synced := false, errors := [] }, [])
  else
    let remote_target := SSH_CENTRAL_DIR ++ "/" ++ skill.name
    let hash_file := remote_target ++ "/.synced_hash"
    let readTr := (read_remote_file_raw E hash_file).2
    let remote_hash := remoteHashOf E hash_file
    let local_hash := skill.content_hash.getD ""
    let needs_update := remote_hash != local_hash
    if needs_update then
      match sync_directory E source_str remote_target with
      | (.ok _, syncTr) =>
        let writeTr := (write_remote_file E hash_file local_hash).2
        ({ skippedSourceMissing := false, skippedUpToDate := false,
           synced := true, errors := [] }, readTr ++ syncTr ++ writeTr)
      | (.error e, syncTr) =>
        ({ skippedSourceMissing := false, skippedUpToDate := false,
           synced := false,
           errors := ["Skill " ++ apos ++ skill.name ++ apos ++ ": " ++ e] },
         readTr ++ syncTr)
    else
      ({ skippedSourceMissing := false, skippedUpToDate := true,
         synced := false, errors := [] }, readTr)

/-- Modelled from the spec: the remote shell contract (§6) restricted to
the marker file of one skill.  Folding over the issued effects: a
successful swap command `rm -rf "DIR" && mv "TMP" "DIR"` for the skill
directory replaces that directory with the uploaded tree, which does not
contain the marker, so the marker becomes absent; a successful
`write_remote_file` command for the marker path sets its content; every
other effect in the per-skill trace (marker read, `mkdir -p`, SFTP uploads
into the temporary path, cleanup of the temporary path) leaves the marker
unchanged. -/
def markerStep (E : Env) (skillDirExp markerPathExp : String)
    (acc : Option String) : Effect → Option String
  | .exec cmd =>
    if pfx (rmRfCmd skillDirExp ++ " && mv \"") cmd then
      match E.exec cmd with
      | .ok _ => none
      | .error _ => acc
    else acc
  | .execStdin cmd data =>
    if cmd == writeCmd markerPathExp then
      match E.execStdin cmd data with
      | .ok _ => some data
      | .error _ => acc
    else acc
  | _ => acc

/-- Marker content after a trace of effects, starting from `init`. -/
def markerAfter (E : Env) (skillDirExp markerPathExp : String)
    (init : Option String) (tr : List Effect) : Option String :=
  tr.foldl (markerStep E skillDirExp markerPathExp) init

end Ssh

/-! ## WSL backend: `wsl/sync.rs` -/

namespace Wsl

/-- Embeds `wsl/sync.rs::windows_to_wsl_path`: expand environment
variables, turn backslashes into slashes, and rewrite a drive-letter prefix
`X:` into `/mnt/x` (the source inspects byte 1; we model the ASCII paths it
is used on via the character list). -/
def windows_to_wsl_path (L : LocalEnv) (windows_path : String) :
    Except String String :=
  match expand_env_vars L windows_path with
  | .error e => .error e
  | .ok expanded =>
    let wsl_path := rustReplace expanded "\\" "/"
    match wsl_path.data with
    | c0 :: c1 :: rest =>
      if c1 == ':' then
        .ok ("/mnt/" ++ String.singleton c0.toLower ++ String.mk rest)
      else .ok wsl_path
    | _ => .ok wsl_path

/-- Embeds `wsl/sync.rs::sync_single_file`. -/
def sync_single_file (E : Env) (windows_path wsl_path distro : String) :
    Except String (List String) × List Effect :=
  match windows_to_wsl_path E.L windows_path with
  | .error e => (.error e, [])
  | .ok wsl_source_path =>
    let wsl_target_path := rustReplace wsl_path "~" "$HOME"
    let command := "mkdir -p \"$(dirname \"" ++ wsl_target_path ++ "\")\" && cp -f \""
      ++ wsl_source_path ++ "\" \"" ++ wsl_target_path ++ "\""
    match E.wsl distro command with
    | .error e => (.error ("Failed to execute WSL command: " ++ e), [.wslExec distro command])
    | .ok out =>
      if out.success then
        (.ok [windows_path ++ " -> " ++ wsl_path], [.wslExec distro command])
      else (.error ("WSL sync failed: " ++ rustTrim out.stderr), [.wslExec distro command])

/-- The source-existence probe command of `wsl/sync.rs::sync_directory`. -/
def checkExistsCmd (wsl_source_path : String) : String :=
  "if [ -e \"" ++ wsl_source_path ++ "\" ]; then echo exists; else echo notfound; fi"

/-- The remove-then-copy command of `wsl/sync.rs::sync_directory`
(lines 357–360): remove the target, then `cp -rL` straight into place. -/
def rmCpCmd (wsl_target_path wsl_source_path : String) : String :=
  "mkdir -p \"$(dirname \"" ++ wsl_target_path ++ "\")\" && rm -rf \""
    ++ wsl_target_path ++ "\" && cp -rL \"" ++ wsl_source_path ++ "\" \""
    ++ wsl_target_path ++ "\" 2>&1"

/-- Embeds `wsl/sync.rs::sync_directory` (probe the converted source path
inside WSL; if absent and the Windows path exists locally report an access
error, if absent on both sides skip; otherwise remove the target and copy
directly into place). -/
def sync_directory (E : Env) (windows_path wsl_path distro : String) :
    Except String (List String) × List Effect :=
  match windows_to_wsl_path E.L windows_path with
  | .error e => (.error e, [])
  | .ok wsl_source_path =>
    let wsl_target_path := rustReplace wsl_path "~" "$HOME"
    let check_command := checkExistsCmd wsl_source_path
    match E.wsl distro check_command with
    | .error e =>
      (.error ("Failed to check WSL source path: " ++ e), [.wslExec distro check_command])
    | .ok chk =>
      if rustTrim chk.stdout == "notfound" then
        if E.localExists windows_path then
          (.error ("WSL directory sync failed: Windows path " ++ apos ++ windows_path
            ++ apos ++ " does not exist or is not accessible from WSL. Converted WSL path: "
            ++ apos ++ wsl_source_path ++ apos
            ++ ". Please check if WSL can access Windows drives."),
           [.wslExec distro check_command])
        else (.ok [], [.wslExec distro check_command])
      else
        let command := rmCpCmd wsl_target_path wsl_source_path
        match E.wsl distro command with
        | .error e =>
          (.error ("Failed to execute WSL directory command: " ++ e),
           [.wslExec distro check_command, .wslExec distro command])
        | .ok out =>
          if out.success then
            (.ok [windows_path ++ " -> " ++ wsl_path],
             [.wslExec distro check_command, .wslExec distro command])
          else
            let stderrT := rustTrim out.stderr
            let stdoutT := rustTrim out.stdout
            if stderrT == "" && stdoutT == "" then
              (.error ("WSL directory sync failed: Command returned exit code "
                ++ toString out.code ++ " but produced no output. Source: " ++ apos
                ++ windows_path ++ apos ++ ", Target WSL: " ++ apos ++ wsl_target_path
                ++ apos ++ ", WSL converted source: " ++ apos ++ wsl_source_path ++ apos),
               [.wslExec distro check_command, .wslExec distro command])
            else if stderrT != "" then
              (.error ("WSL directory sync failed: " ++ stderrT ++ ". Source: " ++ apos
                ++ windows_path ++ apos ++ ", Target: " ++ apos ++ wsl_path ++ apos
                ++ ", Exit code: " ++ toString out.code),
               [.wslExec distro check_command, .wslExec distro command])
            else
              (.error ("WSL directory sync failed: " ++ stdoutT ++ ". Source: " ++ apos
                ++ windows_path ++ apos ++ ", Target: " ++ apos ++ wsl_path ++ apos
                ++ ", Exit code: " ++ toString out.code),
               [.wslExec distro check_command, .wslExec distro command])

/-- Embeds `wsl/sync.rs::sync_pattern_files` (split the converted pattern
at its last slash, build the nullglob copy command, treat
no-matching-file outcomes as an empty success). -/
def sync_pattern_files (E : Env) (windows_pattern wsl_target_dir distro : String) :
    Except String (List String) × List Effect :=
  match windows_to_wsl_path E.L windows_pattern with
  | .error e => (.error e, [])
  | .ok wsl_source_dir =>
    let parts := splitAtLastSlash wsl_source_dir
    let wsl_source_base := parts.1
    let pattern := parts.2
    let wsl_target_dir_expanded := rustReplace wsl_target_dir "~" "$HOME"
    let command := "mkdir -p \"" ++ wsl_target_dir_expanded ++ "\" && if [ -f \""
      ++ wsl_source_base ++ "\"/" ++ pattern ++ " ]; then cp -f \"" ++ wsl_source_base
      ++ "\"/" ++ pattern ++ " \"" ++ wsl_target_dir_expanded
      ++ "\" && echo \"synced\"; else shopt -s nullglob dotglob; files=\""
      ++ wsl_source_base ++ "\"/" ++ pattern
      ++ "; if [ -n \"$files\" ]; then cp -f $files \"" ++ wsl_target_dir_expanded
      ++ "\" 2>/dev/null && echo \"synced\" || true; fi; fi"
    match E.wsl distro command with
    | .error e =>
      (.error ("Failed to execute WSL pattern command: " ++ e), [.wslExec distro command])
    | .ok out =>
      if out.success then
        (.ok [windows_pattern ++ " -> " ++ wsl_target_dir], [.wslExec distro command])
      else
        let stderrT := rustTrim out.stderr
        let stdoutT := rustTrim out.stdout
        if strContainsSub stderrT "cannot stat" || strContainsSub stderrT "No such file"
            || strContainsSub stderrT "No such file or directory" then
          (.ok [], [.wslExec distro command])
        else if stderrT == "" && stdoutT == "" then
          (.ok [], [.wslExec distro command])
        else if stderrT != "" then
          (.error ("WSL pattern sync failed: " ++ stderrT ++ ". Pattern: " ++ apos
            ++ windows_pattern ++ apos ++ ", Target: " ++ apos ++ wsl_target_dir ++ apos
            ++ ", Exit code: " ++ toString out.code),
           [.wslExec distro command])
        else
          (.error ("WSL pattern sync failed: " ++ stdoutT ++ ". Pattern: " ++ apos
            ++ windows_pattern ++ apos ++ ", Target: " ++ apos ++ wsl_target_dir ++ apos
            ++ ", Exit code: " ++ toString out.code),
           [.wslExec distro command])

/-- Modelled from the spec: `FileMapping` (§3).  The concrete struct lives
in `wsl/types.rs`, not part of the provided sources; the fields below are
the ones the provided code reads. -/
structure FileMapping where
  name : String
  module : String
  windows_path : String
  wsl_path : String
  is_directory : Bool
  is_pattern : Bool
  enabled : Bool

/-- Embeds `wsl/sync.rs::sync_file_mapping` (expand the Windows path; for
file and directory kinds skip when the local path does not exist; dispatch
by kind). -/
def sync_file_mapping (E : Env) (m : FileMapping) (distro : String) :
    Except String (List String) × List Effect :=
  match expand_env_vars E.L m.windows_path with
  | .error e => (.error e, [])
  | .ok windows_path =>
    if m.is_directory then
      if ¬ E.localExists windows_path then (.ok [], [])
      else sync_directory E windows_path m.wsl_path distro
    else if m.is_pattern then sync_pattern_files E windows_path m.wsl_path distro
    else
      if ¬ E.localExists windows_path then (.ok [], [])
      else sync_single_file E windows_path m.wsl_path distro

/-- The accumulation loop of `wsl/sync.rs::sync_mappings` (lines 477–489). -/
def runMappings (E : Env) (distro : String) :
    List FileMapping → List String × List String × List String × List Effect
  | [] => ([], [], [], [])
  | m :: rest =>
    let r := sync_file_mapping E m distro
    let acc := runMappings E distro rest
    match r.1 with
    | .ok files =>
      if files.isEmpty then (acc.1, m.name :: acc.2.1, acc.2.2.1, r.2 ++ acc.2.2.2)
      else (files ++ acc.1, acc.2.1, acc.2.2.1, r.2 ++ acc.2.2.2)
    | .error e => (acc.1, acc.2.1, (m.name ++ ": " ++ e) :: acc.2.2.1, r.2 ++ acc.2.2.2)

/-- Embeds `wsl/sync.rs::sync_mappings`. -/
def sync_mappings (E : Env) (mappings : List FileMapping) (distro : String)
    (module_filter : Option String) : Ssh.SyncResult × List Effect :=
  let filtered := (mappings.filter (fun m => m.enabled)).filter
      (fun m => module_filter.isNone || some m.module == module_filter)
  let r := runMappings E distro filtered
  ({ success := r.2.2.1.isEmpty, synced_files := r.1,
     skipped_files := r.2.1, errors := r.2.2.1 }, r.2.2.2)

/-- Error message of the WSL `check_file_encoding` for non-UTF-8 content
(`wsl/sync.rs` lines 510–516). -/
def encodingErrMsg (file_path : String) : String :=
  "文件 " ++ file_path ++ " 编码不是 UTF-8（可能是 GBK/GB2312），请手动转换后重试。\n"
    ++ "修复方法：\n"
    ++ "· WSL 中执行:  iconv -f GBK -t UTF-8 \"" ++ file_path ++ "\" -o \"" ++ file_path
    ++ ".tmp\" && mv \"" ++ file_path ++ ".tmp\" \"" ++ file_path ++ "\"\n"
    ++ "· Windows 中: 用 VS Code 打开文件 → 右下角点击编码 → 选择「通过编码重新打开」→ 选 GBK → 再选「通过编码保存」→ 选 UTF-8"

/-- Embeds `wsl/sync.rs::check_file_encoding`: same validity condition as
the SSH variant, with WSL-specific messages. -/
def check_file_encoding (content file_path : String) : Except String Unit :=
  if strContainsChar content (Char.ofNat 0xFFFD) then .error (encodingErrMsg file_path)
  else if Ssh.sampleLen256 content ≤ Ssh.nonPrintableCount256 content * 10 then
    .error (Ssh.binaryErrMsg file_path)
  else .ok ()

/-- Embeds `wsl/sync.rs::read_wsl_file_raw`. -/
def read_wsl_file_raw (E : Env) (distro wsl_path : String) :
    Except String String × List Effect :=
  let wsl_target := rustReplace wsl_path "~" "$HOME"
  let command := Ssh.catOrEmptyCmd wsl_target
  match E.wsl distro command with
  | .error e => (.error ("Failed to read WSL file: " ++ e), [.wslExec distro command])
  | .ok out =>
    if ¬ out.success then
      if strContainsSub out.stderr "WSL_E_DISTRO_NOT_FOUND"
          || strContainsSub out.stderr "not found" then
        (.error ("WSL distro " ++ apos ++ distro ++ apos ++ " not found"),
         [.wslExec distro command])
      else (.error ("WSL command failed: " ++ rustTrim out.stderr), [.wslExec distro command])
    else (.ok out.stdout, [.wslExec distro command])

/-- Error message of `read_wsl_file` when running iconv itself failed
(`wsl/sync.rs` lines 605–611), naming the manual transcode command. -/
def iconvRunFailMsg (wsl_path : String) : String :=
  "文件 " ++ wsl_path ++ " 编码不是 UTF-8，自动转换失败。请手动转换后重试。\n"
    ++ "修复方法：\n"
    ++ "· WSL 中执行:  iconv -f GBK -t UTF-8 \"" ++ wsl_path ++ "\" -o \"" ++ wsl_path
    ++ ".tmp\" && mv \"" ++ wsl_path ++ ".tmp\" \"" ++ wsl_path ++ "\"\n"
    ++ "· Windows 中: 用 VS Code 打开文件 → 右下角点击编码 → 选择「通过编码重新打开」→ 选 GBK → 再选「通过编码保存」→ 选 UTF-8"

/-- Error message of `read_wsl_file` when iconv ran but its output still
failed validation (`wsl/sync.rs` lines 623–626). -/
def iconvStillInvalidMsg (wsl_path : String) : String :=
  "文件 " ++ wsl_path ++ " 编码不是 UTF-8 也不是 GBK，自动转换失败。请检查文件编码或内容是否损坏。"

/-- Embeds `wsl/sync.rs::read_wsl_file`: raw read, encoding check, at most
one iconv GBK→UTF-8 invocation, re-validation; two distinct failure
messages depending on whether iconv itself failed or its output failed
re-validation. -/
def read_wsl_file (E : Env) (distro wsl_path : String) :
    Except String String × List Effect :=
  match read_wsl_file_raw E distro wsl_path with
  | (.error e, tr) => (.error e, tr)
  | (.ok content, tr) =>
    if (check_file_encoding content wsl_path).isOk then (.ok content, tr)
    else
      let wsl_target := rustReplace wsl_path "~" "$HOME"
      let convert_command := Ssh.iconvCmd wsl_target
      match E.wsl distro convert_command with
      | .error e =>
        (.error ("Failed to run iconv: " ++ e), tr ++ [.wslExec distro convert_command])
      | .ok out =>
        if ¬ out.success then
          (.error (iconvRunFailMsg wsl_path), tr ++ [.wslExec distro convert_command])
        else
          let converted := out.stdout
          if (check_file_encoding converted wsl_path).isOk then
            (.ok converted, tr ++ [.wslExec distro convert_command])
          else
            (.error (iconvStillInvalidMsg wsl_path), tr ++ [.wslExec distro convert_command])

/-- Embeds `wsl/sync.rs::write_wsl_file`. -/
def write_wsl_file (E : Env) (distro wsl_path content : String) :
    Except String Unit × List Effect :=
  let wsl_target := rustReplace wsl_path "~" "$HOME"
  let command := Ssh.writeCmd wsl_target
  match E.wslStdin distro command content with
  | .error e =>
    (.error ("Failed to spawn WSL command: " ++ e), [.wslExecStdin distro command content])
  | .ok true => (.ok (), [.wslExecStdin distro command content])
  | .ok false => (.error "WSL write command failed", [.wslExecStdin distro command content])

/-- Embeds `wsl/sync.rs::remove_wsl_path` — note: no dangerous-path guard,
unlike the SSH `remove_remote_path`. -/
def remove_wsl_path (E : Env) (distro wsl_path : String) :
    Except String Unit × List Effect :=
  let wsl_target := rustReplace wsl_path "~" "$HOME"
  let command := Ssh.rmRfCmd wsl_target
  match E.wsl distro command with
  | .error e => (.error ("Failed to remove WSL path: " ++ e), [.wslExec distro command])
  | .ok out =>
    if out.success then (.ok (), [.wslExec distro command])
    else (.error ("WSL remove failed: " ++ rustTrim out.stderr), [.wslExec distro command])

end Wsl

/-! ## Remote filesystem step model

Modelled from the spec: the remote shell contract (§6).  Every directory
sync compiles to POSIX commands (`rm -rf`, `mv`, per-file writes via SFTP
or `cp -rL`).  We model the remote filesystem as a function from absolute
paths to optional file contents, and the primitive mutations a concurrent
observer can see between (and, for multi-file copies, inside) those
commands.  An SFTP recursive upload and a `cp -rL` are not atomic: they
produce one `write` step per file.  `rm -rf D && mv S D` is two steps: the
removal of `D`, then the rename of `S` onto `D`. -/

/-- Is path `p` the directory `dir` itself or strictly inside it? -/
def isUnder (dir p : String) : Bool := p == dir || pfx (dir ++ "/") p

/-- The remote filesystem: file contents by absolute path. -/
def Fs : Type := String → Option String

/-- The empty remote filesystem. -/
def emptyFs : Fs := fun _ => none

/-- One primitive remote mutation visible to a concurrent observer. -/
inductive FsStep where
  /-- creation or truncating rewrite of a single file -/
  | write (p c : String)
  /-- recursive removal of a directory (`rm -rf`) -/
  | rmTree (dir : String)
  /-- rename of a directory onto a (non-existing) destination (`mv`) -/
  | mvTree (src dst : String)

/-- Effect of one primitive step on the filesystem. -/
def applyStep (fs : Fs) : FsStep → Fs
  | .write p c => fun q => if q == p then some c else fs q
  | .rmTree dir => fun q => if isUnder dir q then none else fs q
  | .mvTree src dst => fun q =>
      if isUnder dst q then fs (src ++ q.drop dst.length)
      else if isUnder src q then none
      else fs q

/-- All states a concurrent observer can see: the initial state and the
state after every step. -/
def statesOf (fs0 : Fs) (steps : List FsStep) : List Fs :=
  steps.scanl applyStep fs0

/-- What a lister of `dir` observes in state `fs` at path `q`. -/
def obsView (fs : Fs) (dir q : String) : Option String :=
  if isUnder dir q then fs q else none

/-- Two states look identical to a lister of `dir`. -/
def sameView (a b : Fs) (dir : String) : Prop :=
  ∀ q, obsView a dir q = obsView b dir q

/-- A lister of `dir` sees nothing (the directory is absent). -/
def emptyView (fs : Fs) (dir : String) : Prop :=
  ∀ q, obsView fs dir q = none

/-- The step sequence of one SSH `sync_directory`: per-file SFTP writes
into the temporary path, then the two halves of
`rm -rf "TARGET" && mv "TMP" "TARGET"`. -/
def sshSwapSteps (target tmp : String) (files : List (String × String)) :
    List FsStep :=
  files.map (fun f => FsStep.write f.1 f.2) ++ [FsStep.rmTree target, FsStep.mvTree tmp target]

/-- The step sequence of one WSL `sync_directory`: the two halves of
`rm -rf "TARGET" && cp -rL "SRC" "TARGET"`, the copy decomposed into
per-file writes directly into the target. -/
def wslCopySteps (target : String) (files : List (String × String)) :
    List FsStep :=
  FsStep.rmTree target :: files.map (fun f => FsStep.write f.1 f.2)

/-- The post-sync tree of an SSH swap: the uploaded files, relocated from
the temporary path onto the target by the rename. -/
def sshPostTree (target tmp : String) (files : List (String × String)) : Fs :=
  applyStep (files.foldl (fun a f => applyStep a (.write f.1 f.2)) emptyFs)
    (.mvTree tmp target)

/-! ## Prefix algebra for the step model -/

theorem listPrefix_iff (a b : List Char) :
    listPrefix a b = true ↔ a ++ b.drop a.length = b := by
  induction a generalizing b with
  | nil => simp [listPrefix]
  | cons x xs ih =>
    cases b with
    | nil => simp [listPrefix]
    | cons y ys =>
      simp only [listPrefix, List.length_cons, List.drop_succ_cons, List.cons_append,
        Bool.and_eq_true, beq_iff_eq]
      constructor
      · rintro ⟨rfl, h⟩
        rw [(ih ys).mp h]
      · intro h
        injection h with h1 h2
        exact ⟨h1, (ih ys).mpr h2⟩

theorem listPrefix_self_append (l m : List Char) : listPrefix l (l ++ m) = true := by
  rw [listPrefix_iff]
  simp

theorem listPrefix_append_right (a b m : List Char) (h : listPrefix a b = true) :
    listPrefix a (b ++ m) = true := by
  rw [listPrefix_iff] at h
  rw [← h, List.append_assoc]
  exact listPrefix_self_append _ _

theorem listPrefix_total (q p r : List Char) :
    listPrefix p q = true → listPrefix r q = true →
    listPrefix p r = true ∨ listPrefix r p = true := by
  induction q generalizing p r with
  | nil =>
    intro hp hr
    cases p with
    | nil => exact Or.inl rfl
    | cons a as => simp [listPrefix] at hp
  | cons x xs ih =>
    intro hp hr
    cases p with
    | nil => exact Or.inl rfl
    | cons a as =>
      cases r with
      | nil => exact Or.inr rfl
      | cons b bs =>
        simp only [listPrefix, Bool.and_eq_true, beq_iff_eq] at hp hr ⊢
        rcases hp with ⟨rfl, hp2⟩
        rcases hr with ⟨rfl, hr2⟩
        rcases ih as bs hp2 hr2 with h | h
        · exact Or.inl ⟨rfl, h⟩
        · exact Or.inr ⟨rfl, h⟩

/-- A string prefix of `b` is also a prefix of `b ++ "/"`. -/
theorem pfx_extend (a b : String) (h : pfx a b = true) : pfx a (b ++ "/") = true := by
  unfold pfx at h ⊢
  rw [String.data_append]
  exact listPrefix_append_right _ _ _ h

/-- Distinct, prefix-free directories have no common member path. -/
theorem isUnder_disjoint (target tmp : String)
    (hne : target ≠ tmp)
    (h3 : pfx (target ++ "/") (tmp ++ "/") = false)
    (h4 : pfx (tmp ++ "/") (target ++ "/") = false) :
    ∀ q, isUnder target q = true → isUnder tmp q = true → False := by
  intro q hq1 hq2
  simp only [isUnder, Bool.or_eq_true, beq_iff_eq] at hq1 hq2
  rcases hq1 with h1 | hp1
  · rcases hq2 with h2 | hp2
    · exact hne (h1.symm.trans h2)
    · rw [h1] at hp2
      have := pfx_extend _ _ hp2
      rw [h4] at this
      exact Bool.noConfusion this
  · rcases hq2 with h2 | hp2
    · rw [h2] at hp1
      have := pfx_extend _ _ hp1
      rw [h3] at this
      exact Bool.noConfusion this
    · unfold pfx at hp1 hp2
      rcases listPrefix_total q.data _ _ hp1 hp2 with h | h
      · have h3' : pfx (target ++ "/") (tmp ++ "/") = true := h
        rw [h3] at h3'
        exact Bool.noConfusion h3'
      · have h4' : pfx (tmp ++ "/") (target ++ "/") = true := h
        rw [h4] at h4'
        exact Bool.noConfusion h4'

/-- A path under `dst` relocated by the `mv` path arithmetic lands
under `src`. -/
theorem isUnder_relocate (src dst q : String) (hq : isUnder dst q = true) :
    isUnder src (src ++ q.drop dst.length) = true := by
  simp only [isUnder, Bool.or_eq_true, beq_iff_eq] at hq ⊢
  rcases hq with rfl | hp
  · left
    apply String.ext
    rw [String.data_append, String.data_drop]
    rw [show (q.length : Nat) = q.data.length from rfl, List.drop_length, List.append_nil]
  · right
    unfold pfx at hp ⊢
    rw [listPrefix_iff] at hp
    have hq2 : q.data = (dst.data ++ ['/'])
        ++ q.data.drop (dst ++ "/").data.length := by
      conv_lhs => rw [← hp]
      rw [String.data_append]
    have hdrop : q.data.drop dst.length
        = '/' :: q.data.drop (dst ++ "/").data.length := by
      conv_lhs => rw [hq2]
      rw [show (dst.length : Nat) = dst.data.length from rfl]
      rw [show dst.data ++ ['/'] ++ q.data.drop (dst ++ "/").data.length
          = dst.data ++ ('/' :: q.data.drop (dst ++ "/").data.length) by
        rw [List.append_assoc]
        rfl]
      exact List.drop_left _ _
    rw [String.data_append, String.data_append, String.data_drop, hdrop]
    have hassoc : (src.data ++ "/".data) ++ q.data.drop (dst ++ "/").data.length
        = src.data ++ '/' :: q.data.drop (dst ++ "/").data.length := by
      rw [List.append_assoc]
      rfl
    rw [← hassoc]
    exact listPrefix_self_append _ _

/-! ## View lemmas for the step model -/

theorem mem_statesOf_append (l1 : List FsStep) :
    ∀ (fs0 : Fs) (l2 : List FsStep) (s : Fs), s ∈ statesOf fs0 (l1 ++ l2) →
      s ∈ statesOf fs0 l1 ∨ s ∈ statesOf (l1.foldl applyStep fs0) l2 := by
  induction l1 with
  | nil =>
    intro fs0 l2 s hs
    exact Or.inr hs
  | cons x xs ih =>
    intro fs0 l2 s hs
    rw [List.cons_append] at hs
    unfold statesOf at hs
    rw [List.scanl_cons] at hs
    rcases List.mem_cons.mp hs with h | h
    · left
      unfold statesOf
      rw [List.scanl_cons]
      exact List.mem_cons.mpr (Or.inl h)
    · rcases ih (applyStep fs0 x) l2 s h with h2 | h2
      · left
        unfold statesOf
        rw [List.scanl_cons]
        exact List.mem_cons.mpr (Or.inr h2)
      · right
        rw [List.foldl_cons]
        exact h2

theorem foldl_mem_scanl (l : List FsStep) :
    ∀ (fs0 : Fs), l.foldl applyStep fs0 ∈ statesOf fs0 l := by
  induction l with
  | nil =>
    intro fs0
    unfold statesOf
    rw [List.scanl_nil, List.foldl_nil]
    exact List.mem_singleton.mpr rfl
  | cons x xs ih =>
    intro fs0
    unfold statesOf
    rw [List.scanl_cons, List.foldl_cons]
    exact List.mem_cons.mpr (Or.inr (ih (applyStep fs0 x)))

/-- A write outside the observed directory does not change its view. -/
theorem write_preserves_view (fs : Fs) (p c target : String)
    (hp : isUnder target p = false) :
    sameView (applyStep fs (.write p c)) fs target := by
  intro q
  unfold obsView applyStep
  by_cases hq : isUnder target q = true
  · rw [hq]
    simp only [if_true]
    by_cases hqp : q == p
    · have : q = p := beq_iff_eq.mp hqp
      rw [this] at hq
      rw [hq] at hp
      exact Bool.noConfusion hp
    · simp [hqp]
  · simp only [Bool.not_eq_true] at hq
    rw [hq]
    simp

/-- All intermediate states of a write sequence outside the observed
directory keep its view. -/
theorem writes_phase (target : String) (files : List (String × String)) :
    ∀ (fs : Fs), (∀ f ∈ files, isUnder target f.1 = false) →
    ∀ s ∈ statesOf fs (files.map (fun f => FsStep.write f.1 f.2)),
      sameView s fs target := by
  induction files with
  | nil =>
    intro fs _ s hs
    unfold statesOf at hs
    rw [List.map_nil, List.scanl_nil] at hs
    rw [List.mem_singleton.mp hs]
    intro q
    rfl
  | cons f rest ih =>
    intro fs hunder s hs
    rw [List.map_cons] at hs
    unfold statesOf at hs
    rw [List.scanl_cons] at hs
    rcases List.mem_cons.mp hs with h | h
    · rw [h]
      intro q
      rfl
    · have h1 := ih (applyStep fs (.write f.1 f.2))
        (fun g hg => hunder g (List.mem_cons.mpr (Or.inr hg))) s h
      have h2 := write_preserves_view fs f.1 f.2 target
        (hunder f (List.mem_cons.mpr (Or.inl rfl)))
      intro q
      rw [h1 q, h2 q]

/-- After `rm -rf TARGET` a lister of the target sees nothing. -/
theorem rm_empty_view (fs : Fs) (target : String) :
    emptyView (applyStep fs (.rmTree target)) target := by
  intro q
  unfold obsView applyStep
  by_cases hq : isUnder target q = true
  · simp [hq]
  · simp [hq]

/-- Write folds agree pointwise when their starting states agree at the
point. -/
theorem foldl_write_point (files : List (String × String)) :
    ∀ (a b : Fs) (p : String), a p = b p →
    (files.foldl (fun acc f => applyStep acc (.write f.1 f.2)) a) p
      = (files.foldl (fun acc f => applyStep acc (.write f.1 f.2)) b) p := by
  induction files with
  | nil =>
    intro a b p h
    exact h
  | cons f rest ih =>
    intro a b p h
    rw [List.foldl_cons, List.foldl_cons]
    apply ih
    unfold applyStep
    by_cases hp : p == f.1
    · simp [hp]
    · simp [hp, h]

/-- The state after the full swap looks, on the target, exactly like the
uploaded tree relocated onto the target. -/
theorem swap_final_view (target tmp : String) (fs0 : Fs)
    (files : List (String × String))
    (hdisj : ∀ q, isUnder target q = true → isUnder tmp q = true → False)
    (hfs0 : ∀ q, isUnder tmp q = true → fs0 q = none) :
    sameView
      (applyStep (applyStep
        (files.foldl (fun a f => applyStep a (.write f.1 f.2)) fs0)
        (.rmTree target)) (.mvTree tmp target))
      (sshPostTree target tmp files) target := by
  intro q
  unfold obsView
  by_cases hq : isUnder target q = true
  · rw [hq]
    simp only [if_true]
    unfold sshPostTree
    show (if isUnder target q = true then _ else _)
      = (if isUnder target q = true then _ else _)
    rw [hq]
    simp only [if_true]
    -- both sides now read the relocated path from their write fold
    set p' := tmp ++ q.drop target.length with hp'
    have hp'tmp : isUnder tmp p' = true := isUnder_relocate tmp target q hq
    have hp'target : isUnder target p' = false := by
      by_cases h : isUnder target p' = true
      · exact absurd (hdisj p' h hp'tmp) id
      · exact Bool.not_eq_true _ ▸ h
    show (if isUnder target p' = true then none
      else (files.foldl (fun a f => applyStep a (.write f.1 f.2)) fs0) p')
      = (files.foldl (fun a f => applyStep a (.write f.1 f.2)) emptyFs) p'
    rw [hp'target]
    simp only [Bool.false_eq_true, if_false]
    exact foldl_write_point files fs0 emptyFs p' (hfs0 p' hp'tmp)
  · simp only [Bool.not_eq_true] at hq
    rw [hq]
    simp

/-! ## C1: observational atomicity of directory sync -/

/-- C1 (amended).  The claim says every directory sync is observed either
as the complete pre-sync tree or the complete post-sync tree.  This holds
for the SSH backend's upload-to-temporary + remove-and-rename swap in the
weakened form forced by the command sequence: at every instant a lister of
the target sees the pre-sync tree, a transiently absent target (between the
`rm -rf` and the `mv` of the swap command), or the complete post-sync
tree — never a partially written mixture.  The WSL backend violates even
that (see the counterexample). -/
theorem c1_ssh_swap_observation (fs0 : Fs) (target tmp : String)
    (files : List (String × String))
    (hne : target ≠ tmp)
    (h3 : pfx (target ++ "/") (tmp ++ "/") = false)
    (h4 : pfx (tmp ++ "/") (target ++ "/") = false)
    (hfiles : ∀ f ∈ files, isUnder tmp f.1 = true)
    (hfs0 : ∀ q, isUnder tmp q = true → fs0 q = none) :
    ∀ s ∈ statesOf fs0 (sshSwapSteps target tmp files),
      sameView s fs0 target ∨ emptyView s target
        ∨ sameView s (sshPostTree target tmp files) target := by
  have hdisj := isUnder_disjoint target tmp hne h3 h4
  have hw' : ∀ f ∈ files, isUnder target f.1 = false := by
    intro f hf
    by_cases hb : isUnder target f.1 = true
    · exact absurd (hdisj f.1 hb (hfiles f hf)) id
    · exact Bool.not_eq_true _ ▸ hb
  have hW : (files.map (fun f => FsStep.write f.1 f.2)).foldl applyStep fs0
      = files.foldl (fun a f => applyStep a (.write f.1 f.2)) fs0 :=
    List.foldl_map _ _ _ _
  intro s hs
  unfold sshSwapSteps at hs
  rcases mem_statesOf_append _ fs0 _ s hs with h | h
  · exact Or.inl (writes_phase target files fs0 hw' s h)
  · unfold statesOf at h
    rw [List.scanl_cons, List.scanl_cons, List.scanl_nil] at h
    rcases List.mem_cons.mp h with h1 | h'
    · rw [h1]
      exact Or.inl (writes_phase target files fs0 hw' _
        (foldl_mem_scanl _ fs0))
    · rcases List.mem_cons.mp h' with h2 | h''
      · rw [h2]
        exact Or.inr (Or.inl (rm_empty_view _ target))
      · rcases List.mem_singleton.mp h'' with rfl
        rw [hW]
        exact Or.inr (Or.inr (swap_final_view target tmp fs0 files hdisj hfs0))

/-- The intermediate state of the C1 witness sync, taken between the
remove and the rename of the swap. -/
def c1wMid : Fs :=
  applyStep (applyStep emptyFs (FsStep.write "t.tmp_5/a" "1")) (FsStep.rmTree "t")

/-- Witness for C1 (amended) at a concrete sync and a concrete observable
state. -/
theorem c1_ssh_swap_observation_witness :
    sameView c1wMid emptyFs "t" ∨ emptyView c1wMid "t"
      ∨ sameView c1wMid (sshPostTree "t" "t.tmp_5" [("t.tmp_5/a", "1")]) "t" := by
  have hmem : c1wMid ∈ statesOf emptyFs (sshSwapSteps "t" "t.tmp_5" [("t.tmp_5/a", "1")]) := by
    unfold statesOf sshSwapSteps c1wMid
    rw [List.map_cons, List.map_nil, List.cons_append, List.nil_append]
    rw [List.scanl_cons, List.scanl_cons, List.scanl_cons, List.scanl_nil]
    exact List.mem_cons.mpr (Or.inr (List.mem_cons.mpr (Or.inr
      (List.mem_cons.mpr (Or.inl rfl)))))
  exact c1_ssh_swap_observation emptyFs "t" "t.tmp_5" [("t.tmp_5/a", "1")]
    (by decide) (by decide) (by decide) (by decide) (fun _ _ => rfl) c1wMid hmem

/-- The pre-sync remote state of the C1 counterexample: the target holds
one old file. -/
def c1Fs0 : Fs := fun q => if q == "t/old" then some "0" else none

/-- The files of the C1 counterexample's source tree, as copied by the WSL
backend directly into the target. -/
def c1Files : List (String × String) := [("t/a", "1"), ("t/b", "2")]

/-- The intermediate state of the WSL copy after the removal and the first
file write. -/
def c1Mid : Fs := applyStep (applyStep c1Fs0 (FsStep.rmTree "t")) (FsStep.write "t/a" "1")

/-- The final state of the WSL copy. -/
def c1Final : Fs := applyStep c1Mid (FsStep.write "t/b" "2")

/-- C1 (counterexample).  On the WSL backend `sync_directory` issues
`rm -rf TARGET && cp -rL SRC TARGET` (`Wsl.rmCpCmd`), whose copy phase
writes directly into the target: after the first of two files has been
copied, a lister of the target sees a state that differs from the complete
pre-sync tree and from the complete post-sync tree — a partially written
mixture, contradicting the claim. -/
theorem c1_counterexample :
    c1Mid ∈ statesOf c1Fs0 (wslCopySteps "t" c1Files)
    ∧ ¬ sameView c1Mid c1Fs0 "t"
    ∧ ¬ sameView c1Mid c1Final "t" := by
  refine ⟨?_, ?_, ?_⟩
  · unfold statesOf wslCopySteps c1Files
    rw [List.map_cons, List.map_cons, List.map_nil]
    rw [List.scanl_cons, List.scanl_cons, List.scanl_cons, List.scanl_nil]
    exact List.mem_cons.mpr (Or.inr (List.mem_cons.mpr (Or.inr
      (List.mem_cons.mpr (Or.inl rfl)))))
  · intro h
    exact absurd (h "t/old") (by decide)
  · intro h
    exact absurd (h "t/b") (by decide)

/-! ## Concrete environments for witnesses and counterexamples -/

/-- A local environment with nothing set (no home, no variables). -/
def bareLocal : LocalEnv :=
  { homeDir := none, userprofile := none, appdata := none,
    localappdata := none, homeEnv := none }

/-- An environment in which every external call succeeds (with empty
output) and every local path exists. -/
def okEnv : Env :=
  { L := bareLocal
    localExists := fun _ => true
    exec := fun _ => .ok ""
    execStdin := fun _ _ => .ok ()
    upFile := fun _ _ => .ok ()
    upDir := fun _ _ => .ok ()
    sftpCreate := .ok ()
    sftpUp := fun _ _ => .ok ()
    glob := fun _ => .ok []
    nowMillis := 5
    wsl := fun _ _ => .ok { success := true, code := 0, stdout := "", stderr := "" }
    wslStdin := fun _ _ _ => .ok true
    handleClosed := fun _ => false
    connectRes := fun _ => .ok 1 }

/-! ## C2: dangerous-path safety guard -/

/-- C2 (counterexample).  The claim says that for remote paths in
{empty, `/`, tilde, `$HOME`} both the directory sync and the remove
operation always fail with the safety error on both backends, regardless
of whether the local source exists.  It is false twice over: the WSL
`remove_wsl_path` has no guard at all — called on `/` it issues
`rm -rf "/"` to the distro and returns success — and the SSH
`sync_directory` returns success (empty list, no effects) for a dangerous
remote path when the local source does not exist, because the
source-existence check precedes the safety check. -/
theorem c2_counterexample :
    (Wsl.remove_wsl_path okEnv "Ubuntu" "/").1 = .ok ()
    ∧ (Wsl.remove_wsl_path okEnv "Ubuntu" "/").2
        = [Effect.wslExec "Ubuntu" "rm -rf \"/\""]
    ∧ (Ssh.sync_directory
        { okEnv with localExists := fun _ => false } "/local/src" "/").1 = .ok []
    ∧ (Ssh.sync_directory
        { okEnv with localExists := fun _ => false } "/local/src" "/").2 = [] := by
  refine ⟨rfl, by decide, rfl, rfl⟩

/-- C2 (amended): on the SSH backend the guard is real — for a dangerous
remote path, `remove_remote_path` always fails with the refusal error and
issues no remote effect, and `sync_directory` does the same provided the
expanded local source exists (when the source is absent it returns an
empty success before reaching the check).  The WSL backend has no guard. -/
theorem c2_ssh_safety_guard (E : Env) (p lp : String)
    (hd : Ssh.dangerous_remote p = true)
    (hl : E.localExists (expandLocalPure E.L lp) = true) :
    Ssh.remove_remote_path E p
      = (.error ("拒绝删除危险路径: " ++ apos ++ p ++ apos), [])
    ∧ Ssh.sync_directory E lp p
      = (.error ("拒绝同步到危险路径: " ++ apos ++ p ++ apos), []) := by
  constructor
  · unfold Ssh.remove_remote_path
    rw [hd]
    rfl
  · unfold Ssh.sync_directory expand_local_path
    simp only [hl, hd]
    rfl

/-- Witness for C2 (amended) at a concrete dangerous path. -/
theorem c2_ssh_safety_guard_witness :
    Ssh.remove_remote_path okEnv "/"
      = (.error ("拒绝删除危险路径: " ++ apos ++ "/" ++ apos), [])
    ∧ Ssh.sync_directory okEnv "/local/src" "/"
      = (.error ("拒绝同步到危险路径: " ++ apos ++ "/" ++ apos), []) :=
  c2_ssh_safety_guard okEnv "/" "/local/src" (by decide) rfl

/-! ## C4: swap failure is cleaned up and distinguishable -/

/-- C4: when the remove-old + rename swap step of an SSH directory sync
fails, the operation issues a removal of its temporary remote path as the
last effect before returning, and returns the swap-specific error
(`目录替换失败: `-prefixed); an upload failure instead surfaces the upload
error unchanged, so any upload error not carrying that prefix is distinct
from every swap error. -/
theorem c4_swap_failure_cleanup (E : Env) (lp rp mkout e eu : String)
    (hl : E.localExists (expandLocalPure E.L lp) = true)
    (hd : Ssh.dangerous_remote rp = false)
    (hmk : E.exec (Ssh.mkdirDirnameCmd (rustReplace rp "~" "$HOME")) = .ok mkout) :
    (E.upDir (expandLocalPure E.L lp) (rp ++ ".tmp_" ++ toString E.nowMillis) = .ok ()
      → E.exec (Ssh.swapCmd (rustReplace rp "~" "$HOME")
          (rustReplace rp "~" "$HOME" ++ ".tmp_" ++ toString E.nowMillis)) = .error e
      → Ssh.sync_directory E lp rp
        = (.error ("目录替换失败: " ++ e),
           [.exec (Ssh.mkdirDirnameCmd (rustReplace rp "~" "$HOME")),
            .sftpUploadDir (expandLocalPure E.L lp) (rp ++ ".tmp_" ++ toString E.nowMillis),
            .exec (Ssh.swapCmd (rustReplace rp "~" "$HOME")
              (rustReplace rp "~" "$HOME" ++ ".tmp_" ++ toString E.nowMillis)),
            .exec (Ssh.rmRfCmd (rustReplace rp "~" "$HOME" ++ ".tmp_"
              ++ toString E.nowMillis))]))
    ∧ (E.upDir (expandLocalPure E.L lp) (rp ++ ".tmp_" ++ toString E.nowMillis) = .error eu
      → Ssh.sync_directory E lp rp
        = (.error eu,
           [.exec (Ssh.mkdirDirnameCmd (rustReplace rp "~" "$HOME")),
            .sftpUploadDir (expandLocalPure E.L lp) (rp ++ ".tmp_" ++ toString E.nowMillis)]))
    ∧ (pfx "目录替换失败: " eu = false → "目录替换失败: " ++ e ≠ eu) := by
  refine ⟨?_, ?_, ?_⟩
  · intro hup hswap
    unfold Ssh.sync_directory expand_local_path
    simp [hl, hmk, hup, hswap, hd]
  · intro hup
    unfold Ssh.sync_directory expand_local_path
    simp [hl, hmk, hup, hd]
  · intro hpfx heq
    have : pfx "目录替换失败: " ("目录替换失败: " ++ e) = true := by
      unfold pfx
      rw [String.data_append]
      exact listPrefix_self_append _ _
    rw [heq, hpfx] at this
    exact Bool.noConfusion this

/-- Witness for C4 at a concrete failing swap. -/
theorem c4_swap_failure_cleanup_witness :
    (Ssh.sync_directory
      { okEnv with exec := fun c => if c == Ssh.mkdirDirnameCmd "r" then .ok "" else .error "boom" }
      "/src" "r"
      = (.error ("目录替换失败: " ++ "boom"),
         [.exec (Ssh.mkdirDirnameCmd "r"),
          .sftpUploadDir "/src" ("r" ++ ".tmp_" ++ toString (5 : Nat)),
          .exec (Ssh.swapCmd "r" ("r" ++ ".tmp_" ++ toString (5 : Nat))),
          .exec (Ssh.rmRfCmd ("r" ++ ".tmp_" ++ toString (5 : Nat)))]))
    ∧ ("目录替换失败: " ++ "boom" ≠ "upload exploded") := by
  have h := c4_swap_failure_cleanup
    { okEnv with exec := fun c => if c == Ssh.mkdirDirnameCmd "r" then .ok "" else .error "boom" }
    "/src" "r" "" "boom" "upload exploded" rfl (by decide) rfl
  exact ⟨h.1 rfl rfl, h.2.2 (by decide)⟩

/-! ## C5: connect is a no-op keyed on the connection record id -/

/-- Connection record used by the C5 analysis. -/
def c5ConnA : SSHConnection :=
  { id := "c1", host := "hostA", port := 22, username := "u",
    auth_method := "password", password := "p", passphrase := "",
    private_key_path := "", private_key_content := "" }

/-- Same record id as `c5ConnA` but a different host. -/
def c5ConnB : SSHConnection := { c5ConnA with host := "hostB" }

/-- Record with a different id but the same host, port and username as
`c5ConnA`. -/
def c5ConnC : SSHConnection := { c5ConnA with id := "c2" }

/-- A session currently connected to `c5ConnA` with a live handle. -/
def c5St : Ssh.SshSessionSt :=
  { conn := some c5ConnA, handle := some 7, status := .Connected }

/-- C5 (counterexample).  The claim says `connect` treats "identical
target" as same host, port and username, and that connecting to a
different target first disconnects and then establishes the new
connection.  The code compares connection record ids instead: connecting
to `c5ConnB` (same id, different host) while alive is a no-op — no
disconnect, no connection attempt, the stored connection still points at
`hostA` — and connecting to `c5ConnC` (same host/port/username, different
id) tears the live connection down and reconnects. -/
theorem c5_counterexample :
    c5ConnB.host ≠ c5ConnA.host
    ∧ (Ssh.connect okEnv c5St c5ConnB).1 = c5St
    ∧ (Ssh.connect okEnv c5St c5ConnB).2.1 = .ok ()
    ∧ (Ssh.connect okEnv c5St c5ConnB).2.2 = []
    ∧ c5ConnC.host = c5ConnA.host ∧ c5ConnC.port = c5ConnA.port
    ∧ c5ConnC.username = c5ConnA.username
    ∧ (Ssh.connect okEnv c5St c5ConnC).2.2
        = [Effect.sshDisconnect, Effect.sshConnect "hostA" 22 "u"] := by
  refine ⟨by decide, by decide, rfl, by decide, rfl, rfl, rfl, ?_⟩
  decide

/-- C5 (amended): "identical target" is identity of the connection record
id.  If the stored connection has the requested record's id and the handle
is alive, `connect` is a no-op that returns success with status
`Connected` and issues no effects; otherwise it disconnects first (a
disconnect effect exactly when a handle existed) and then attempts a fresh
connection to the requested record, adopting it wholesale. -/
theorem c5_connect_by_record_id (E : Env) (s : Ssh.SshSessionSt)
    (conn : SSHConnection) (h : Nat) (e : String) :
    (((s.conn.map (fun c => c.id) == some conn.id) && Ssh.is_alive E s) = true
      → Ssh.connect E s conn = ({ s with status := .Connected }, .ok (), []))
    ∧ (((s.conn.map (fun c => c.id) == some conn.id) && Ssh.is_alive E s) = false
      → E.connectRes conn = .ok h
      → Ssh.connect E s conn
        = ({ conn := some conn, handle := some h, status := .Connected }, .ok (),
           (Ssh.disconnect s).2 ++ [.sshConnect conn.host conn.port conn.username]))
    ∧ (((s.conn.map (fun c => c.id) == some conn.id) && Ssh.is_alive E s) = false
      → E.connectRes conn = .error e
      → Ssh.connect E s conn
        = ({ conn := some conn, handle := none,
             status := .Failed ("SSH 连接失败: " ++ e) },
           .error ("SSH 连接失败: " ++ e),
           (Ssh.disconnect s).2 ++ [.sshConnect conn.host conn.port conn.username])) := by
  refine ⟨?_, ?_, ?_⟩
  · intro hcond
    unfold Ssh.connect
    rw [hcond]
    rfl
  · intro hcond hres
    unfold Ssh.connect
    rw [hcond]
    simp [hres]
  · intro hcond hres
    unfold Ssh.connect
    rw [hcond]
    simp [hres]
    rfl

/-- Witness for C5 (amended): the live no-op case and the
different-id reconnect case at concrete inputs. -/
theorem c5_connect_by_record_id_witness :
    (Ssh.connect okEnv c5St c5ConnA = ({ c5St with status := .Connected }, .ok (), []))
    ∧ (Ssh.connect okEnv c5St c5ConnC
        = ({ conn := some c5ConnC, handle := some 1, status := .Connected }, .ok (),
           (Ssh.disconnect c5St).2 ++ [.sshConnect c5ConnC.host c5ConnC.port c5ConnC.username])) :=
  ⟨(c5_connect_by_record_id okEnv c5St c5ConnA 1 "").1 (by decide),
   (c5_connect_by_record_id okEnv c5St c5ConnC 1 "").2.1 (by decide) rfl⟩

/-! ## C6: missing local source yields empty success -/

/-- C6: every SSH sync operation whose local source does not exist after
alias expansion (for the pattern operation: whose glob matches nothing)
returns success with an empty transferred list and issues no remote
effect. -/
theorem c6_missing_source_empty_success (E : Env) (lp rp pat rdir : String)
    (hl : E.localExists (expandLocalPure E.L lp) = false)
    (hg : E.glob (expandLocalPure E.L pat) = .ok []) :
    Ssh.sync_single_file E lp rp = (.ok [], [])
    ∧ Ssh.sync_directory E lp rp = (.ok [], [])
    ∧ Ssh.sync_pattern_files E pat rdir = (.ok [], []) := by
  refine ⟨?_, ?_, ?_⟩
  · unfold Ssh.sync_single_file expand_local_path
    simp [hl]
  · unfold Ssh.sync_directory expand_local_path
    simp [hl]
  · unfold Ssh.sync_pattern_files expand_local_path
    simp [hg]

/-- Witness for C6 at a concrete environment with no local files. -/
theorem c6_missing_source_empty_success_witness :
    Ssh.sync_single_file { okEnv with localExists := fun _ => false } "/a" "/r" = (.ok [], [])
    ∧ Ssh.sync_directory { okEnv with localExists := fun _ => false } "/a" "/r" = (.ok [], [])
    ∧ Ssh.sync_pattern_files { okEnv with localExists := fun _ => false } "/a/*.json" "/r"
        = (.ok [], []) :=
  c6_missing_source_empty_success { okEnv with localExists := fun _ => false }
    "/a" "/r" "/a/*.json" "/r" rfl rfl

/-! ## C7: validity condition of the encoding check -/

/-- The ten-character input of the C7 counterexample: nine ASCII-graphic
characters and one control character (exactly 10% non-printable). -/
def c7Input : String := "abcdefghi" ++ String.singleton (Char.ofNat 1)

/-- C7 (counterexample).  The claim says the check reports the text
invalid exactly when it contains U+FFFD or when more than 10% of its first
256 characters are neither printable nor whitespace.  The code uses
`non_printable_count * 10 >= sample_len`, i.e. at least 10%: this input
contains no U+FFFD and exactly 10% non-printable characters — not more —
yet the check rejects it. -/
theorem c7_counterexample :
    (Ssh.check_file_encoding c7Input "f").isOk = false
    ∧ strContainsChar c7Input (Char.ofNat 0xFFFD) = false
    ∧ Ssh.nonPrintableCount256 c7Input * 10 = Ssh.sampleLen256 c7Input := by
  refine ⟨by decide, by decide, by decide⟩

/-- C7 (amended): on both backends the check accepts a text exactly when
it contains no U+FFFD and strictly less than 10% of its first 256
characters (with the sample length floored at 1) are neither ASCII-graphic
nor ASCII-whitespace; equivalently, it rejects exactly at a non-printable
ratio of at least 10% or on any U+FFFD. -/
theorem c7_encoding_check_iff (content file_path : String) :
    ((Ssh.check_file_encoding content file_path).isOk = true
      ↔ (strContainsChar content (Char.ofNat 0xFFFD) = false
         ∧ Ssh.nonPrintableCount256 content * 10 < Ssh.sampleLen256 content))
    ∧ ((Wsl.check_file_encoding content file_path).isOk = true
      ↔ (strContainsChar content (Char.ofNat 0xFFFD) = false
         ∧ Ssh.nonPrintableCount256 content * 10 < Ssh.sampleLen256 content)) := by
  unfold Ssh.check_file_encoding Wsl.check_file_encoding
  constructor <;>
  · by_cases h1 : strContainsChar content (Char.ofNat 0xFFFD) = true
    · simp [h1, Except.isOk, Except.toBool]
    · by_cases h2 : Ssh.sampleLen256 content ≤ Ssh.nonPrintableCount256 content * 10
      · have h2' : ¬ (Ssh.nonPrintableCount256 content * 10 < Ssh.sampleLen256 content) :=
          Nat.not_lt.mpr h2
        simp [h1, h2, h2', Except.isOk, Except.toBool]
      · have h2' : Ssh.nonPrintableCount256 content * 10 < Ssh.sampleLen256 content :=
          Nat.not_le.mp h2
        simp [h1, h2, h2', Except.isOk, Except.toBool]

/-! ## C9: batch semantics of sync_mappings -/

/-- Characterization of the SSH batch loop by three projections, proved by
induction in input order. -/
theorem ssh_runMappings_spec (E : Env) (l : List Ssh.SSHFileMapping) :
    (Ssh.runMappings E l).1 = (l.map (fun m =>
        match (Ssh.sync_file_mapping E m).1 with
        | .ok files => files
        | .error _ => [])).flatten
    ∧ (Ssh.runMappings E l).2.1 = l.filterMap (fun m =>
        match (Ssh.sync_file_mapping E m).1 with
        | .ok files => if files.isEmpty then some m.name else none
        | .error _ => none)
    ∧ (Ssh.runMappings E l).2.2.1 = l.filterMap (fun m =>
        match (Ssh.sync_file_mapping E m).1 with
        | .ok _ => none
        | .error e => some (m.name ++ ": " ++ e)) := by
  induction l with
  | nil => exact ⟨rfl, rfl, rfl⟩
  | cons m rest ih =>
    obtain ⟨ih1, ih2, ih3⟩ := ih
    unfold Ssh.runMappings
    cases hr : (Ssh.sync_file_mapping E m).1 with
    | ok files =>
      by_cases hf : files.isEmpty
      · have hfe : files = [] := List.isEmpty_iff.mp hf
        subst hfe
        simp [hr, ih1, ih2, ih3]
      · have hne : files ≠ [] := by
          intro hcontra
          rw [hcontra] at hf
          exact hf rfl
        simp [hr, hf, hne, ih1, ih2, ih3]
    | error e => simp [hr, ih1, ih2, ih3]

/-- Characterization of the WSL batch loop. -/
theorem wsl_runMappings_spec (E : Env) (distro : String)
    (l : List Wsl.FileMapping) :
    (Wsl.runMappings E distro l).1 = (l.map (fun m =>
        match (Wsl.sync_file_mapping E m distro).1 with
        | .ok files => files
        | .error _ => [])).flatten
    ∧ (Wsl.runMappings E distro l).2.1 = l.filterMap (fun m =>
        match (Wsl.sync_file_mapping E m distro).1 with
        | .ok files => if files.isEmpty then some m.name else none
        | .error _ => none)
    ∧ (Wsl.runMappings E distro l).2.2.1 = l.filterMap (fun m =>
        match (Wsl.sync_file_mapping E m distro).1 with
        | .ok _ => none
        | .error e => some (m.name ++ ": " ++ e)) := by
  induction l with
  | nil => exact ⟨rfl, rfl, rfl⟩
  | cons m rest ih =>
    obtain ⟨ih1, ih2, ih3⟩ := ih
    unfold Wsl.runMappings
    cases hr : (Wsl.sync_file_mapping E m distro).1 with
    | ok files =>
      by_cases hf : files.isEmpty
      · have hfe : files = [] := List.isEmpty_iff.mp hf
        subst hfe
        simp [hr, ih1, ih2, ih3]
      · have hne : files ≠ [] := by
          intro hcontra
          rw [hcontra] at hf
          exact hf rfl
        simp [hr, hf, hne, ih1, ih2, ih3]
    | error e => simp [hr, ih1, ih2, ih3]

/-- C9: on both backends, the batch processes exactly the mappings that
are enabled and match the optional module filter, in input order; each
per-mapping failure contributes one collected error without stopping the
remaining mappings; a per-mapping empty transfer list records the mapping
as skipped; and the batch's success flag holds iff the collected error
list is empty. -/
theorem c9_sync_mappings_batch (E : Env) (mappings : List Ssh.SSHFileMapping)
    (wmappings : List Wsl.FileMapping) (distro : String)
    (module_filter : Option String) :
    ((Ssh.sync_mappings E mappings module_filter).1.errors
      = (((mappings.filter (fun m => m.enabled)).filter
          (fun m => module_filter.isNone || some m.module == module_filter)).filterMap
          (fun m => match (Ssh.sync_file_mapping E m).1 with
            | .ok _ => none
            | .error e => some (m.name ++ ": " ++ e)))
    ∧ (Ssh.sync_mappings E mappings module_filter).1.skipped_files
      = (((mappings.filter (fun m => m.enabled)).filter
          (fun m => module_filter.isNone || some m.module == module_filter)).filterMap
          (fun m => match (Ssh.sync_file_mapping E m).1 with
            | .ok files => if files.isEmpty then some m.name else none
            | .error _ => none))
    ∧ (Ssh.sync_mappings E mappings module_filter).1.synced_files
      = ((((mappings.filter (fun m => m.enabled)).filter
          (fun m => module_filter.isNone || some m.module == module_filter)).map
          (fun m => match (Ssh.sync_file_mapping E m).1 with
            | .ok files => files
            | .error _ => [])).flatten)
    ∧ ((Ssh.sync_mappings E mappings module_filter).1.success = true
        ↔ (Ssh.sync_mappings E mappings module_filter).1.errors = []))
    ∧ ((Wsl.sync_mappings E wmappings distro module_filter).1.errors
      = (((wmappings.filter (fun m => m.enabled)).filter
          (fun m => module_filter.isNone || some m.module == module_filter)).filterMap
          (fun m => match (Wsl.sync_file_mapping E m distro).1 with
            | .ok _ => none
            | .error e => some (m.name ++ ": " ++ e)))
    ∧ ((Wsl.sync_mappings E wmappings distro module_filter).1.success = true
        ↔ (Wsl.sync_mappings E wmappings distro module_filter).1.errors = [])) := by
  have hs := ssh_runMappings_spec E ((mappings.filter (fun m => m.enabled)).filter
      (fun m => module_filter.isNone || some m.module == module_filter))
  have hw := wsl_runMappings_spec E distro ((wmappings.filter (fun m => m.enabled)).filter
      (fun m => module_filter.isNone || some m.module == module_filter))
  refine ⟨⟨hs.2.2, hs.2.1, hs.1, ?_⟩, hw.2.2, ?_⟩
  · show (Ssh.runMappings E _).2.2.1.isEmpty = true ↔ _
    exact List.isEmpty_iff
  · show (Wsl.runMappings E distro _).2.2.1.isEmpty = true ↔ _
    exact List.isEmpty_iff

/-! ## C8: remote text read with one transcode attempt -/

deriving instance DecidableEq for Except

/-- A one-character string holding U+FFFD, the replacement character. -/
def fffdStr : String := String.singleton (Char.ofNat 0xFFFD)

/-- Environment of the C8 counterexample: every WSL invocation succeeds
with a replacement-character stdout (so the raw read is invalid, and the
iconv attempt runs fine but its output is still invalid). -/
def c8Env : Env :=
  { okEnv with
    wsl := fun _ _ =>
      Except.ok { success := true, code := 0, stdout := fffdStr, stderr := "" } }

/-- Environment of the C8 witness: every SSH command returns the
replacement character (invalid raw read, invalid converted text). -/
def c8sshEnv : Env := { okEnv with exec := fun _ => .ok fffdStr }

/-- C8 (counterexample).  The claim says that when the converted text
fails re-validation, the returned error names the exact manual transcode
command.  On the WSL backend, when iconv itself exits successfully but its
output still fails validation, the returned error is the
neither-UTF-8-nor-GBK message, which contains no transcode command at all
(not even the word iconv); exactly one transcode invocation was issued. -/
theorem c8_counterexample :
    (Wsl.read_wsl_file c8Env "Ubuntu" "p").1 = .error (Wsl.iconvStillInvalidMsg "p")
    ∧ strContainsSub (Wsl.iconvStillInvalidMsg "p") "iconv" = false
    ∧ (Wsl.read_wsl_file c8Env "Ubuntu" "p").2
        = [.wslExec "Ubuntu" (Ssh.catOrEmptyCmd "p"),
           .wslExec "Ubuntu" (Ssh.iconvCmd "p")] := by
  refine ⟨by decide, by decide, by decide⟩

/-- C8 (amended): on both backends a valid raw read is returned directly
with no transcode attempt; an invalid raw read triggers exactly one
remote GBK-to-UTF-8 transcode invocation whose result is re-validated, and
the converted text is returned when it validates.  On failure the SSH
backend always returns the message naming the manual transcode command
(`Ssh.iconvFailMsg`), while the WSL backend returns a command-naming
message (`Wsl.iconvRunFailMsg`) only when the iconv invocation itself
failed; when iconv succeeded but its output is still invalid, the WSL
error (`Wsl.iconvStillInvalidMsg`) does not name the command. -/
theorem c8_read_remote_text (E : Env) (path distro raw conv e : String)
    (out : WslOut)
    (hraw : E.exec (Ssh.catOrEmptyCmd (rustReplace path "~" "$HOME")) = .ok raw) :
    ((Ssh.check_file_encoding raw path).isOk = true
      → Ssh.read_remote_file E path
        = (.ok raw, [.exec (Ssh.catOrEmptyCmd (rustReplace path "~" "$HOME"))]))
    ∧ ((Ssh.check_file_encoding raw path).isOk = false
      → E.exec (Ssh.iconvCmd (rustReplace path "~" "$HOME")) = .ok conv
      → Ssh.read_remote_file E path
        = (if (Ssh.check_file_encoding conv path).isOk then .ok conv
           else .error (Ssh.iconvFailMsg path),
           [.exec (Ssh.catOrEmptyCmd (rustReplace path "~" "$HOME")),
            .exec (Ssh.iconvCmd (rustReplace path "~" "$HOME"))]))
    ∧ ((Ssh.check_file_encoding raw path).isOk = false
      → E.exec (Ssh.iconvCmd (rustReplace path "~" "$HOME")) = .error e
      → Ssh.read_remote_file E path
        = (.error (Ssh.iconvFailMsg path),
           [.exec (Ssh.catOrEmptyCmd (rustReplace path "~" "$HOME")),
            .exec (Ssh.iconvCmd (rustReplace path "~" "$HOME"))]))
    ∧ (E.wsl distro (Ssh.catOrEmptyCmd (rustReplace path "~" "$HOME"))
        = .ok { success := true, code := 0, stdout := raw, stderr := "" }
      → (Wsl.check_file_encoding raw path).isOk = false
      → E.wsl distro (Ssh.iconvCmd (rustReplace path "~" "$HOME")) = .ok out
      → out.success = true
      → Wsl.read_wsl_file E distro path
        = (if (Wsl.check_file_encoding out.stdout path).isOk then .ok out.stdout
           else .error (Wsl.iconvStillInvalidMsg path),
           [.wslExec distro (Ssh.catOrEmptyCmd (rustReplace path "~" "$HOME")),
            .wslExec distro (Ssh.iconvCmd (rustReplace path "~" "$HOME"))])) := by
  refine ⟨?_, ?_, ?_, ?_⟩
  · intro hv
    unfold Ssh.read_remote_file Ssh.read_remote_file_raw
    dsimp only
    rw [hraw]
    simp [hv]
  · intro hv hic
    unfold Ssh.read_remote_file Ssh.read_remote_file_raw
    dsimp only
    rw [hraw]
    simp only [hv, Bool.false_eq_true, if_false, hic]
    split <;> rfl
  · intro hv hic
    unfold Ssh.read_remote_file Ssh.read_remote_file_raw
    dsimp only
    rw [hraw]
    simp only [hv, Bool.false_eq_true, if_false, hic]
    rfl
  · intro hwraw hv hic hsucc
    unfold Wsl.read_wsl_file Wsl.read_wsl_file_raw
    dsimp only
    rw [hwraw]
    simp only [Bool.not_true, not_true, Bool.false_eq_true, if_false]
    rw [hv, hic]
    simp only [hsucc, Bool.not_true, Bool.false_eq_true, if_false]
    rw [if_neg (fun h => h trivial)]
    split <;> rfl

/-- Witness for C8 (amended): the SSH still-invalid branch names the
manual command; exercised at concrete inputs. -/
theorem c8_read_remote_text_witness :
    (Ssh.read_remote_file c8sshEnv "p").1 = .error (Ssh.iconvFailMsg "p")
    ∧ (Ssh.read_remote_file c8sshEnv "p").2
        = [.exec (Ssh.catOrEmptyCmd "p"), .exec (Ssh.iconvCmd "p")]
    ∧ strContainsSub (Ssh.iconvFailMsg "p") "iconv -f GBK -t UTF-8 \"p\"" = true := by
  have h := (c8_read_remote_text c8sshEnv "p" "d" fffdStr fffdStr ""
    { success := true, code := 0, stdout := "", stderr := "" } rfl).2.1
    (by decide) rfl
  rw [if_neg (by decide)] at h
  rw [h]
  exact ⟨rfl, by decide, by decide⟩

/-! ## C10: absent remote file reads as empty -/

/-- Modelled from the spec: the remote shell contract (§6).  The command
built by `read_remote_file_raw` / `read_wsl_file_raw` falls into its
`else echo ''` branch when no regular file exists at the path: the command
prints a single newline on stdout and exits 0. -/
def catOrEmptyAbsentOut : Except String String := .ok "\n"

/-- C10: when no regular file exists at the remote path (so the generated
command behaves as `catOrEmptyAbsentOut`), the raw read succeeds on both
backends with content `"\n"`, which is empty after trimming; consequently
the Skills Reconciler's remote marker hash is the empty string, which
differs from any non-empty local hash and forces a re-sync instead of a
failure. -/
theorem c10_absent_file_empty_read (E : Env) (path distro lh : String)
    (hssh : E.exec (Ssh.catOrEmptyCmd (rustReplace path "~" "$HOME")) = catOrEmptyAbsentOut)
    (hwsl : E.wsl distro (Ssh.catOrEmptyCmd (rustReplace path "~" "$HOME"))
      = .ok { success := true, code := 0, stdout := "\n", stderr := "" })
    (hlh : lh ≠ "") :
    Ssh.read_remote_file_raw E path
      = (.ok "\n", [.exec (Ssh.catOrEmptyCmd (rustReplace path "~" "$HOME"))])
    ∧ Wsl.read_wsl_file_raw E distro path
      = (.ok "\n", [.wslExec distro (Ssh.catOrEmptyCmd (rustReplace path "~" "$HOME"))])
    ∧ rustTrim "\n" = ""
    ∧ Ssh.remoteHashOf E path = ""
    ∧ (Ssh.remoteHashOf E path != lh) = true := by
  have h1 : Ssh.read_remote_file_raw E path
      = (.ok "\n", [.exec (Ssh.catOrEmptyCmd (rustReplace path "~" "$HOME"))]) := by
    unfold Ssh.read_remote_file_raw
    dsimp only
    rw [hssh]
    rfl
  have h4 : Ssh.remoteHashOf E path = "" := by
    unfold Ssh.remoteHashOf
    rw [h1]
    show rustTrim "\n" = ""
    decide
  refine ⟨h1, ?_, by decide, h4, ?_⟩
  · unfold Wsl.read_wsl_file_raw
    dsimp only
    rw [hwsl]
    rfl
  · rw [h4]
    simp [bne_iff_ne]
    exact fun hcontra => hlh hcontra.symm

/-- Environment of the C10 witness: the remote/WSL reads behave as on an
absent file. -/
def c10Env : Env :=
  { okEnv with
    exec := fun _ => .ok "\n",
    wsl := fun _ _ =>
      Except.ok { success := true, code := 0, stdout := "\n", stderr := "" } }

/-- Witness for C10 at a concrete environment with no remote files. -/
theorem c10_absent_file_empty_read_witness :
    Ssh.read_remote_file_raw c10Env "~/.ai-toolbox/skills/foo/.synced_hash"
      = (.ok "\n", [.exec (Ssh.catOrEmptyCmd
          (rustReplace "~/.ai-toolbox/skills/foo/.synced_hash" "~" "$HOME"))])
    ∧ Wsl.read_wsl_file_raw c10Env "Ubuntu" "~/.ai-toolbox/skills/foo/.synced_hash"
      = (.ok "\n", [.wslExec "Ubuntu" (Ssh.catOrEmptyCmd
          (rustReplace "~/.ai-toolbox/skills/foo/.synced_hash" "~" "$HOME"))])
    ∧ rustTrim "\n" = ""
    ∧ Ssh.remoteHashOf c10Env "~/.ai-toolbox/skills/foo/.synced_hash" = ""
    ∧ (Ssh.remoteHashOf c10Env "~/.ai-toolbox/skills/foo/.synced_hash" != "h1") = true :=
  c10_absent_file_empty_read c10Env "~/.ai-toolbox/skills/foo/.synced_hash"
    "Ubuntu" "h1" rfl rfl (by decide)

/-! ## C3: the remote marker after a successful skill sync -/

/-- A string prefix survives appending on the right. -/
theorem head_of_append (a b : String) (c : Char) (h : a.data.head? = some c) :
    (a ++ b).data.head? = some c := by
  rw [String.data_append]
  cases hl : a.data with
  | nil => rw [hl] at h; simp at h
  | cons x xs =>
    rw [hl] at h
    simpa using h

/-- Strings whose first characters differ are not prefixes of one
another. -/
theorem pfx_false_of_head_ne (a b : String) (c d : Char)
    (ha : a.data.head? = some c) (hb : b.data.head? = some d) (hne : c ≠ d) :
    pfx a b = false := by
  unfold pfx
  cases hla : a.data with
  | nil => rw [hla] at ha; simp at ha
  | cons x xs =>
    cases hlb : b.data with
    | nil => simp [listPrefix]
    | cons y ys =>
      rw [hla] at ha
      rw [hlb] at hb
      simp only [List.head?_cons, Option.some.injEq] at ha hb
      subst ha
      subst hb
      simp [listPrefix, hne]

/-- A common left factor preserves the prefix relation. -/
theorem listPrefix_append_same (c a b : List Char) (h : listPrefix a b = true) :
    listPrefix (c ++ a) (c ++ b) = true := by
  induction c with
  | nil => exact h
  | cons x xs ih => simp [listPrefix, ih]

/-- The swap-command pattern used by the marker model is a prefix of the
swap command `sync_directory` issues for the same directory. -/
theorem pfx_swap_pattern (d t : String) :
    pfx (Ssh.rmRfCmd d ++ " && mv \"") (Ssh.swapCmd d t) = true := by
  unfold pfx Ssh.rmRfCmd Ssh.swapCmd
  have hqm : ("\" && mv \"" : String).data
      = ("\"" : String).data ++ (" && mv \"" : String).data := by decide
  simp only [String.data_append, List.append_assoc, hqm]
  apply listPrefix_append_same
  apply listPrefix_append_same
  apply listPrefix_append_same
  exact listPrefix_self_append _ _

/-- The marker-affecting fold ignores the initial raw read and the mkdir
command, removes the marker at the successful swap, and finally records
the successfully written hash. -/
theorem markerAfter_success_trace (E : Env) (dirExp markerExp tmpExp up1 up2 lh : String)
    (init : Option String)
    (hswap : E.exec (Ssh.swapCmd dirExp tmpExp) = .ok "")
    (hwrite : E.execStdin (Ssh.writeCmd markerExp) lh = .ok ()) :
    Ssh.markerAfter E dirExp markerExp init
      [.exec (Ssh.catOrEmptyCmd markerExp), .exec (Ssh.mkdirDirnameCmd dirExp),
       .sftpUploadDir up1 up2, .exec (Ssh.swapCmd dirExp tmpExp),
       .execStdin (Ssh.writeCmd markerExp) lh]
      = some lh := by
  have hcat : pfx (Ssh.rmRfCmd dirExp ++ " && mv \"") (Ssh.catOrEmptyCmd markerExp) = false := by
    apply pfx_false_of_head_ne _ _ 'r' 'i'
    · exact head_of_append _ _ 'r' (head_of_append _ _ 'r' (head_of_append _ _ 'r' rfl))
    · exact head_of_append _ _ 'i' (head_of_append _ _ 'i' (head_of_append _ _ 'i'
        (head_of_append _ _ 'i' rfl)))
    · decide
  have hmkd : pfx (Ssh.rmRfCmd dirExp ++ " && mv \"") (Ssh.mkdirDirnameCmd dirExp) = false := by
    apply pfx_false_of_head_ne _ _ 'r' 'm'
    · exact head_of_append _ _ 'r' (head_of_append _ _ 'r' (head_of_append _ _ 'r' rfl))
    · exact head_of_append _ _ 'm' (head_of_append _ _ 'm' rfl)
    · decide
  unfold Ssh.markerAfter
  simp only [List.foldl_cons, List.foldl_nil]
  unfold Ssh.markerStep
  simp only [hcat, hmkd, pfx_swap_pattern, Bool.false_eq_true, if_false, if_true, hswap,
    beq_self_eq_true, hwrite]

/-- Generic shape of a successful SSH `sync_directory` run, used to expose
the effect trace to the marker model. -/
theorem ssh_sync_directory_success (E : Env) (lp rp mkout swout : String)
    (hl : E.localExists (expandLocalPure E.L lp) = true)
    (hd : Ssh.dangerous_remote rp = false)
    (hmk : E.exec (Ssh.mkdirDirnameCmd (rustReplace rp "~" "$HOME")) = .ok mkout)
    (hup : E.upDir (expandLocalPure E.L lp) (rp ++ ".tmp_" ++ toString E.nowMillis) = .ok ())
    (hswap : E.exec (Ssh.swapCmd (rustReplace rp "~" "$HOME")
      (rustReplace rp "~" "$HOME" ++ ".tmp_" ++ toString E.nowMillis)) = .ok swout) :
    Ssh.sync_directory E lp rp
      = (.ok [lp ++ " -> " ++ rp],
         [.exec (Ssh.mkdirDirnameCmd (rustReplace rp "~" "$HOME")),
          .sftpUploadDir (expandLocalPure E.L lp) (rp ++ ".tmp_" ++ toString E.nowMillis),
          .exec (Ssh.swapCmd (rustReplace rp "~" "$HOME")
            (rustReplace rp "~" "$HOME" ++ ".tmp_" ++ toString E.nowMillis))]) := by
  unfold Ssh.sync_directory expand_local_path
  simp [hl, hd, hmk, hup, hswap]

/-- Environment of the C3 counterexample: every remote command succeeds,
but every stdin-feeding write (the marker write) fails. -/
def c3Env : Env := { okEnv with execStdin := fun _ _ => .error "disk full" }

/-- The skill of the C3 analysis. -/
def c3Skill : Ssh.ManagedSkill :=
  { name := "foo", content_hash := some "h1", enabled_tools := [] }

/-- C3 (counterexample).  The claim says that after any successful sync of
a skill (transfer completed, skill not reported failed) the remote marker
holds exactly the local content hash.  If the marker write fails, the code
only logs a warning: the skill is still counted as synced and no error is
reported, while the swap has just replaced the skill directory with the
uploaded tree, which contains no marker — so the marker is absent, not
`"h1"`, even though the stale pre-sync marker held `"stale"`. -/
theorem c3_counterexample :
    (Ssh.skill_sync_core c3Env c3Skill "/skills/foo" true).1.errors = []
    ∧ (Ssh.skill_sync_core c3Env c3Skill "/skills/foo" true).1.synced = true
    ∧ Ssh.markerAfter c3Env
        (rustReplace (Ssh.SSH_CENTRAL_DIR ++ "/" ++ "foo") "~" "$HOME")
        (rustReplace (Ssh.SSH_CENTRAL_DIR ++ "/" ++ "foo" ++ "/.synced_hash") "~" "$HOME")
        (some "stale")
        (Ssh.skill_sync_core c3Env c3Skill "/skills/foo" true).2 ≠ some "h1" := by
  refine ⟨by decide, by decide, by decide⟩

/-- C3 (amended): after a successful transfer of a skill whose remote hash
differed, *and a successful marker write*, the remote marker holds exactly
the skill's local content hash and the skill is not reported failed.  When
the marker write fails the failure is only logged: the skill is still not
reported failed, but the marker is left absent (see the counterexample). -/
theorem c3_marker_after_successful_sync (E : Env) (skill : Ssh.ManagedSkill)
    (source_str mkout : String) (init : Option String)
    (hneq : Ssh.remoteHashOf E (Ssh.SSH_CENTRAL_DIR ++ "/" ++ skill.name ++ "/.synced_hash")
      ≠ skill.content_hash.getD "")
    (hl : E.localExists (expandLocalPure E.L source_str) = true)
    (hd : Ssh.dangerous_remote (Ssh.SSH_CENTRAL_DIR ++ "/" ++ skill.name) = false)
    (hmk : E.exec (Ssh.mkdirDirnameCmd
      (rustReplace (Ssh.SSH_CENTRAL_DIR ++ "/" ++ skill.name) "~" "$HOME")) = .ok mkout)
    (hup : E.upDir (expandLocalPure E.L source_str)
      (Ssh.SSH_CENTRAL_DIR ++ "/" ++ skill.name ++ ".tmp_" ++ toString E.nowMillis) = .ok ())
    (hswap : E.exec (Ssh.swapCmd
      (rustReplace (Ssh.SSH_CENTRAL_DIR ++ "/" ++ skill.name) "~" "$HOME")
      (rustReplace (Ssh.SSH_CENTRAL_DIR ++ "/" ++ skill.name) "~" "$HOME"
        ++ ".tmp_" ++ toString E.nowMillis)) = .ok "")
    (hwrite : E.execStdin (Ssh.writeCmd
      (rustReplace (Ssh.SSH_CENTRAL_DIR ++ "/" ++ skill.name ++ "/.synced_hash") "~" "$HOME"))
      (skill.content_hash.getD "") = .ok ()) :
    (Ssh.skill_sync_core E skill source_str true).1.errors = []
    ∧ (Ssh.skill_sync_core E skill source_str true).1.synced = true
    ∧ Ssh.markerAfter E
        (rustReplace (Ssh.SSH_CENTRAL_DIR ++ "/" ++ skill.name) "~" "$HOME")
        (rustReplace (Ssh.SSH_CENTRAL_DIR ++ "/" ++ skill.name ++ "/.synced_hash") "~" "$HOME")
        init (Ssh.skill_sync_core E skill source_str true).2
      = some (skill.content_hash.getD "") := by
  have hsync := ssh_sync_directory_success E source_str
    (Ssh.SSH_CENTRAL_DIR ++ "/" ++ skill.name) mkout "" hl hd hmk hup hswap
  have hcore : Ssh.skill_sync_core E skill source_str true
      = ({ skippedSourceMissing := false, skippedUpToDate := false,
           synced := true, errors := [] },
         (Ssh.read_remote_file_raw E
            (Ssh.SSH_CENTRAL_DIR ++ "/" ++ skill.name ++ "/.synced_hash")).2
           ++ (Ssh.sync_directory E source_str (Ssh.SSH_CENTRAL_DIR ++ "/" ++ skill.name)).2
           ++ (Ssh.write_remote_file E
                (Ssh.SSH_CENTRAL_DIR ++ "/" ++ skill.name ++ "/.synced_hash")
                (skill.content_hash.getD "")).2) := by
    unfold Ssh.skill_sync_core
    dsimp only
    rw [if_neg (by simp)]
    rw [if_pos (by simpa [bne_iff_ne] using hneq)]
    rw [show (Ssh.sync_directory E source_str (Ssh.SSH_CENTRAL_DIR ++ "/" ++ skill.name))
        = (.ok [source_str ++ " -> " ++ (Ssh.SSH_CENTRAL_DIR ++ "/" ++ skill.name)],
           (Ssh.sync_directory E source_str (Ssh.SSH_CENTRAL_DIR ++ "/" ++ skill.name)).2)
      from by rw [hsync]]
  rw [hcore]
  refine ⟨rfl, rfl, ?_⟩
  show Ssh.markerAfter E _ _ init
    ((Ssh.read_remote_file_raw E _).2
      ++ (Ssh.sync_directory E source_str _).2
      ++ (Ssh.write_remote_file E _ _).2) = _
  rw [hsync]
  unfold Ssh.read_remote_file_raw Ssh.write_remote_file
  dsimp only
  exact markerAfter_success_trace E _ _ _ _ _ _ init hswap hwrite

/-- Witness for C3 (amended) at a concrete all-successful environment. -/
theorem c3_marker_after_successful_sync_witness :
    (Ssh.skill_sync_core okEnv c3Skill "/skills/foo" true).1.errors = []
    ∧ (Ssh.skill_sync_core okEnv c3Skill "/skills/foo" true).1.synced = true
    ∧ Ssh.markerAfter okEnv
        (rustReplace (Ssh.SSH_CENTRAL_DIR ++ "/" ++ c3Skill.name) "~" "$HOME")
        (rustReplace (Ssh.SSH_CENTRAL_DIR ++ "/" ++ c3Skill.name ++ "/.synced_hash") "~" "$HOME")
        none (Ssh.skill_sync_core okEnv c3Skill "/skills/foo" true).2
      = some (c3Skill.content_hash.getD "") :=
  c3_marker_after_successful_sync okEnv c3Skill "/skills/foo" "" none
    (by decide) rfl (by decide) rfl rfl rfl rfl
